import Mathlib

/-!
# tiny-world: the Build system

A shallow embedding of `game/sys/build.go` (`Build.Update`, `Build.checkAbort`,
`Build.isLastWarehouse`) as explicit state passing over a `World`, together with
a trace of the calls the system makes on its collaborators.

The packages `terr`, `res`, `util` and the entity store are not part of the
sources at hand.  Tables and predicates of those packages are fields of `Env`;
the few operations whose effect matters (grids, stock, entity store, entity
factory) are modelled from the specification and marked as such.
-/

namespace TinyWorld

/-! ## Data model -/

/-- Modelled from the spec: the enumeration `terr.Terrain` of terrain and land-use
kinds.  `build.go` names only `terr.Air` and `terr.Bulldoze`; every other kind is
`Kind n`. -/
inductive Terrain where
  | Air
  | Bulldoze
  | Kind (n : Nat)
  deriving DecidableEq, Repr

/-- Modelled from the spec: the capability flags of `terr.TerrainBits` that
`build.go` tests. -/
inductive TerrainBit where
  | IsTerrain
  | CanBuild
  | CanBuy
  | IsWarehouse
  deriving DecidableEq, Repr

/-- Modelled from the spec: a bitset of capability flags. -/
structure TerrainBits where
  flags : List TerrainBit
  deriving DecidableEq, Repr

/-- The test `TerrainBits.Contains(bit)`. -/
def TerrainBits.Contains (b : TerrainBits) (bit : TerrainBit) : Bool :=
  b.flags.contains bit

/-- Modelled from the spec: the set of kinds a type may be placed on. -/
structure Terrains where
  kinds : List Terrain
  deriving DecidableEq, Repr

/-- The test `BuildOn.Contains(t)`. -/
def Terrains.Contains (s : Terrains) (t : Terrain) : Bool :=
  s.kinds.contains t

/-- One entry of a cost: an amount of one resource. -/
structure ResourceAmount where
  Resource : Nat
  Amount : Nat
  deriving DecidableEq, Repr

/-- A cost, as held in `BuildCost`. -/
abbrev Cost := List ResourceAmount

/-- Modelled from the spec: one entry of the table `terr.Properties`. -/
structure TerrainProps where
  BuildCost : Cost
  Population : Int
  TerrainBits : TerrainBits
  BuildOn : Terrains
  deriving DecidableEq, Repr

/-- The handle `ecs.Entity`; `ecs.Entity{}` is the zero handle. -/
structure Entity where
  id : Nat
  deriving DecidableEq, Repr

/-- The zero handle `ecs.Entity{}`, the "none" reference of the entity grids. -/
def Entity.zero : Entity := ⟨0⟩

/-- The components of a live entity that the Build system's filters look at:
`comp.Tile`, `comp.Warehouse`, `comp.BuildRadius`. -/
structure Components where
  Tile : Option (Int × Int)
  Warehouse : Bool
  BuildRadius : Option Nat
  deriving DecidableEq, Repr

/-- Modelled from the spec: `Grid<T>`, a value for every tile coordinate. -/
structure Grid (T : Type) where
  cell : Int → Int → T

/-- Modelled from the spec: `Grid.Get(x, y)`. -/
def Grid.Get {T : Type} (g : Grid T) (x y : Int) : T := g.cell x y

/-- Modelled from the spec: `Grid.Set(x, y, v)` writes the one cell `(x, y)`. -/
def Grid.Set {T : Type} (g : Grid T) (x y : Int) (v : T) : Grid T :=
  ⟨fun a b => if a = x ∧ b = y then v else g.cell a b⟩

/-- Modelled from the spec: the resource `res.Stock`: population, capacity and a
ledger of resource quantities. -/
structure Stock where
  Population : Int
  MaxPopulation : Int
  Res : Nat → Int

/-- The total amount of resource `r` that a cost asks for. -/
def Cost.total (c : Cost) (r : Nat) : Nat :=
  ((c.filter (fun a => a.Resource == r)).map (fun a => a.Amount)).sum

/-- Modelled from the spec: `Stock.CanPay(cost)`, a pure predicate: the ledger
holds what the cost asks of every resource it names. -/
def Stock.CanPay (s : Stock) (c : Cost) : Bool :=
  c.all (fun a => decide ((c.total a.Resource : Int) ≤ s.Res a.Resource))

/-- Modelled from the spec: `Stock.Pay(cost)` subtracts the cost from the ledger
without looking at what the ledger holds. -/
def Stock.Pay (s : Stock) (c : Cost) : Stock :=
  { s with Res := fun r => s.Res r - (c.total r : Int) }

/-- The resource `res.Selection`. -/
structure Selection where
  BuildType : Terrain
  AllowRemove : Bool
  RandSprite : Bool
  deriving DecidableEq, Repr

/-- A point of `image.Point`. -/
structure Point where
  X : Int
  Y : Int
  deriving DecidableEq, Repr

/-- What the input layer reports in one tick. -/
structure Input where
  CursorPosition : Int × Int
  KeyEscapeJustPressed : Bool
  MouseButton0JustPressed : Bool
  MouseButton2JustPressed : Bool
  deriving DecidableEq, Repr

/-- The resources and the entity store that `Build.Update` reads and writes.
`entities` lists the live entities with their components; `created` counts the
entities ever created. -/
structure World where
  terrain : Grid Terrain
  terrainEntities : Grid Entity
  landUse : Grid Terrain
  landUseEntities : Grid Entity
  stock : Stock
  selection : Selection
  entities : List (Entity × Components)
  created : Nat

/-- The parts of the repository that `build.go` uses and that are not in the
sources at hand: the table `terr.Properties`, `util.IsBuildable` over the
radius query, `ui.MouseInside`, the view's `ScreenToGlobal` and `GlobalToTile`,
`Selection.Reset`, and the components the entity factory gives to an entity of a
kind at a tile. -/
structure Env where
  Properties : Terrain → TerrainProps
  IsBuildable : Int → Int → List (Entity × Components) → Bool
  MouseInside : Int → Int → Bool
  ScreenToGlobal : Int → Int → Int × Int
  GlobalToTile : Int → Int → Point
  Reset : Selection → Selection
  components : Int → Int → Terrain → Bool → Components

/-! ## Calls on collaborators -/

/-- The calls of `Build.Update` on its collaborators that the properties below
speak about, in the order they are made. -/
inductive Event where
  | SelectionReset
  | CanPay (cost : Cost) (ok : Bool)
  | Pay (cost : Cost)
  | RemoveEntity (e : Entity)
  | LandUseSet (x y : Int) (t : Terrain)
  | LandUseEntitiesSet (x y : Int) (e : Entity)
  | FactorySet (x y : Int) (t : Terrain) (randSprite : Bool)
  | ReplaceButton
  deriving DecidableEq, Repr

/-- A world together with the calls made so far. -/
structure Run where
  world : World
  trace : List Event

/-- The call `sel.Reset()`. -/
def Run.Reset (E : Env) (r : Run) : Run :=
  { world := { r.world with selection := E.Reset r.world.selection }
    trace := r.trace ++ [Event.SelectionReset] }

/-- The call `stock.CanPay(cost)`: the answer, and the run with the call recorded. -/
def Run.CanPay (r : Run) (c : Cost) : Bool × Run :=
  (r.world.stock.CanPay c,
    { r with trace := r.trace ++ [Event.CanPay c (r.world.stock.CanPay c)] })

/-- The call `stock.Pay(cost)`. -/
def Run.Pay (r : Run) (c : Cost) : Run :=
  { world := { r.world with stock := r.world.stock.Pay c }
    trace := r.trace ++ [Event.Pay c] }

/-- Modelled from the spec: `world.RemoveEntity(e)` of the entity store: the
entity is no longer live. -/
def Run.RemoveEntity (r : Run) (e : Entity) : Run :=
  { world := { r.world with entities := r.world.entities.filter (fun p => p.1 ≠ e) }
    trace := r.trace ++ [Event.RemoveEntity e] }

/-- The call `landUse.Set(x, y, t)`. -/
def Run.LandUseSet (r : Run) (x y : Int) (t : Terrain) : Run :=
  { world := { r.world with landUse := r.world.landUse.Set x y t }
    trace := r.trace ++ [Event.LandUseSet x y t] }

/-- The call `landUseE.Set(x, y, e)`. -/
def Run.LandUseEntitiesSet (r : Run) (x y : Int) (e : Entity) : Run :=
  { world := { r.world with landUseEntities := r.world.landUseEntities.Set x y e }
    trace := r.trace ++ [Event.LandUseEntitiesSet x y e] }

/-- The call `ui.ReplaceButton(stock, rules)`. -/
def Run.ReplaceButton (r : Run) : Run :=
  { r with trace := r.trace ++ [Event.ReplaceButton] }

/-- Modelled from the spec: `EntityFactory.Set(world, x, y, type, randSprite)`.
It creates a new entity, registers its reference in the entity grid of the
layer that the `IsTerrain` flag of the type selects, and sets that layer's
grid to the type.  It removes no entity. -/
def Run.FactorySet (E : Env) (r : Run) (x y : Int) (t : Terrain) (randSprite : Bool) : Run :=
  let e : Entity := ⟨r.world.created + 1⟩
  let w1 : World :=
    { r.world with
      entities := r.world.entities ++ [(e, E.components x y t randSprite)]
      created := r.world.created + 1 }
  let w2 : World :=
    if (E.Properties t).TerrainBits.Contains TerrainBit.IsTerrain then
      { w1 with
        terrainEntities := w1.terrainEntities.Set x y e
        terrain := w1.terrain.Set x y t }
    else
      { w1 with
        landUseEntities := w1.landUseEntities.Set x y e
        landUse := w1.landUse.Set x y t }
  { world := w2, trace := r.trace ++ [Event.FactorySet x y t randSprite] }

/-! ## The Build system -/

/-- Addition of Go `int` values (64 bit, wrapping). -/
def addInt (a b : Int) : Int := (a + b + 2 ^ 63) % 2 ^ 64 - 2 ^ 63

/-- The count of the query of `warehouseFilter`: the live entities that carry
`comp.Warehouse`. -/
def warehouseCount (w : World) : Nat :=
  (w.entities.filter (fun p => p.2.Warehouse)).length

/-- The function `Build.isLastWarehouse`. -/
def isLastWarehouse (w : World) : Bool :=
  let count := warehouseCount w
  decide (count ≤ 1)

/-- The function `Build.checkAbort`: whether to skip the tick, and the run after
the calls it made. -/
def checkAbort (E : Env) (inp : Input) (r : Run) : Bool × Run :=
  let sel := r.world.selection
  if inp.KeyEscapeJustPressed then
    (true, r.Reset E)
  else
    let pos := inp.CursorPosition
    if E.MouseInside pos.1 pos.2 then
      (true, r)
    else if inp.MouseButton2JustPressed then
      (true, r.Reset E)
    else if !inp.MouseButton0JustPressed then
      (true, r)
    else
      let p := E.Properties sel.BuildType
      if sel.BuildType != Terrain.Bulldoze && !p.TerrainBits.Contains TerrainBit.CanBuild then
        (true, r)
      else
        (false, r)

/-- The tile under the cursor, as `Build.Update` resolves it. -/
def cursorTile (E : Env) (inp : Input) : Point :=
  let pos := inp.CursorPosition
  let m := E.ScreenToGlobal pos.1 pos.2
  E.GlobalToTile m.1 m.2

/-- The test of the population cap in `Build.Update`:
`p.Population > 0 && stock.Population+int(p.Population) > stock.MaxPopulation`. -/
def overCap (s : Stock) (p : TerrainProps) : Bool :=
  decide (p.Population > 0) && decide (addInt s.Population p.Population > s.MaxPopulation)

/-- The function `Build.Update`: one tick of the Build system. -/
def Update (E : Env) (inp : Input) (w : World) : Run :=
  let a := checkAbort E inp ⟨w, []⟩
  if a.1 then
    a.2
  else
    let r := a.2
    let sel := r.world.selection
    let cursor := cursorTile E inp
    let p := E.Properties sel.BuildType
    if p.TerrainBits.Contains TerrainBit.CanBuy
        && !E.IsBuildable cursor.X cursor.Y r.world.entities then
      r
    else if sel.BuildType == Terrain.Bulldoze then
      let luHere := r.world.landUse.Get cursor.X cursor.Y
      let luProps := E.Properties luHere
      if luProps.TerrainBits.Contains TerrainBit.IsWarehouse && isLastWarehouse r.world then
        r
      else if luProps.TerrainBits.Contains TerrainBit.CanBuild then
        let r1 := r.RemoveEntity (r.world.landUseEntities.Get cursor.X cursor.Y)
        let r2 := r1.LandUseEntitiesSet cursor.X cursor.Y Entity.zero
        let r3 := r2.LandUseSet cursor.X cursor.Y Terrain.Air
        let r4 := r3.Pay p.BuildCost
        r4.ReplaceButton
      else
        r
    else
      let c := r.CanPay p.BuildCost
      if !c.1 then
        c.2
      else
        let r := c.2
        if overCap r.world.stock p then
          r
        else
          let terrHere := r.world.terrain.Get cursor.X cursor.Y
          if p.TerrainBits.Contains TerrainBit.IsTerrain then
            let canBuild := p.BuildOn.Contains terrHere ||
              (sel.AllowRemove && terrHere != Terrain.Air && terrHere != sel.BuildType)
            if !canBuild then
              r
            else
              let r1 := r.FactorySet E cursor.X cursor.Y sel.BuildType sel.RandSprite
              let r2 := r1.Pay p.BuildCost
              r2.ReplaceButton
          else
            if !p.BuildOn.Contains terrHere then
              r
            else
              let luHere := r.world.landUse.Get cursor.X cursor.Y
              let luNatural := !(E.Properties luHere).TerrainBits.Contains TerrainBit.CanBuy
              if luHere == Terrain.Air
                  || (luNatural && p.TerrainBits.Contains TerrainBit.CanBuy) then
                let r1 :=
                  if luHere != Terrain.Air then
                    let q1 := r.LandUseSet cursor.X cursor.Y Terrain.Air
                    let q2 := q1.RemoveEntity (q1.world.landUseEntities.Get cursor.X cursor.Y)
                    q2.LandUseEntitiesSet cursor.X cursor.Y Entity.zero
                  else
                    r
                let r2 := r1.FactorySet E cursor.X cursor.Y sel.BuildType sel.RandSprite
                let r3 := r2.Pay p.BuildCost
                r3.ReplaceButton
              else
                r

/-! ## Vocabulary of the properties -/

/-- The tick is not skipped: `checkAbort` returns false. -/
abbrev notAborted (E : Env) (inp : Input) (w : World) : Prop :=
  (checkAbort E inp ⟨w, []⟩).1 = false

/-- The build-radius pre-check of `Build.Update` passes for the selected type:
the type lacks `CanBuy`, or `util.IsBuildable` holds at the cursor tile. -/
abbrev preCheckPasses (E : Env) (inp : Input) (w : World) : Prop :=
  (E.Properties w.selection.BuildType).TerrainBits.Contains TerrainBit.CanBuy = false ∨
    E.IsBuildable (cursorTile E inp).X (cursorTile E inp).Y w.entities = true

/-- The table entry of the selected build type, `p` in `Build.Update`. -/
abbrev selProps (E : Env) (w : World) : TerrainProps :=
  E.Properties w.selection.BuildType

/-- The land use at the cursor tile, `luHere` in `Build.Update`. -/
abbrev landUseHere (E : Env) (inp : Input) (w : World) : Terrain :=
  w.landUse.Get (cursorTile E inp).X (cursorTile E inp).Y

/-- The terrain at the cursor tile, `terrHere` in `Build.Update`. -/
abbrev terrainHere (E : Env) (inp : Input) (w : World) : Terrain :=
  w.terrain.Get (cursorTile E inp).X (cursorTile E inp).Y

/-- The entity reference in `LandUseEntities` at the cursor tile. -/
abbrev landUseEntityHere (E : Env) (inp : Input) (w : World) : Entity :=
  w.landUseEntities.Get (cursorTile E inp).X (cursorTile E inp).Y

/-- The test of the terrain branch, `canBuild` in `Build.Update`. -/
abbrev terrainLegal (E : Env) (inp : Input) (w : World) : Prop :=
  (selProps E w).BuildOn.Contains (terrainHere E inp w) = true ∨
    (w.selection.AllowRemove = true ∧ terrainHere E inp w ≠ Terrain.Air ∧
      terrainHere E inp w ≠ w.selection.BuildType)

/-- The test of the land-use branch: the tile is free, or holds a natural
feature and the selected type is purchasable. -/
abbrev landUseLegal (E : Env) (inp : Input) (w : World) : Prop :=
  landUseHere E inp w = Terrain.Air ∨
    ((E.Properties (landUseHere E inp w)).TerrainBits.Contains TerrainBit.CanBuy = false ∧
      (selProps E w).TerrainBits.Contains TerrainBit.CanBuy = true)

/-- The calls that write a layer or the entity store: entity removal, a grid
`Set`, and the factory's `Set`. -/
def Event.isLayerWrite : Event → Bool
  | Event.RemoveEntity _ => true
  | Event.LandUseSet _ _ _ => true
  | Event.LandUseEntitiesSet _ _ _ => true
  | Event.FactorySet _ _ _ _ => true
  | _ => false

/-- A call of the factory's `Set`. -/
def Event.isFactorySet : Event → Bool
  | Event.FactorySet _ _ _ _ => true
  | _ => false

/-- A call of `stock.Pay`. -/
def Event.isPay : Event → Bool
  | Event.Pay _ => true
  | _ => false

/-- A call of `world.RemoveEntity`. -/
def Event.isRemoveEntity : Event → Bool
  | Event.RemoveEntity _ => true
  | _ => false

/-- A call of `stock.CanPay`. -/
def Event.isCanPay : Event → Bool
  | Event.CanPay _ _ => true
  | _ => false

/-- The run placed something: the factory's `Set` was called. -/
def Run.placed (r : Run) : Bool := r.trace.any Event.isFactorySet

/-- Layers, entity grids, entity store and stock of `w2` are those of `w1`. -/
def World.sameState (w1 w2 : World) : Prop :=
  w2.terrain = w1.terrain ∧ w2.terrainEntities = w1.terrainEntities ∧
  w2.landUse = w1.landUse ∧ w2.landUseEntities = w1.landUseEntities ∧
  w2.entities = w1.entities ∧ w2.created = w1.created ∧ w2.stock = w1.stock

/-- The entity is live in the world. -/
def World.isLive (w : World) (e : Entity) : Bool :=
  w.entities.any (fun p => p.1 == e)

/-! ## A concrete world

A small table and world on which the properties are evaluated.  The view of
this world maps the pixel `(x, y)` to the tile `(x, y)`. -/

/-- Grass, a terrain kind. -/
def GrassTerrain : Terrain := Terrain.Kind 1

/-- Water, a terrain kind that may replace grass. -/
def Water : Terrain := Terrain.Kind 2

/-- House, a purchasable land use on grass that grants population. -/
def House : Terrain := Terrain.Kind 3

/-- Road, a purchasable land use on grass that grants no population. -/
def Road : Terrain := Terrain.Kind 4

/-- Warehouse, a purchasable land use flagged `IsWarehouse`. -/
def Warehouse : Terrain := Terrain.Kind 5

/-- Tree, a natural (not purchasable) land use. -/
def Tree : Terrain := Terrain.Kind 6

/-- Quay, a terrain kind whose table entry also carries `CanBuy`. -/
def Quay : Terrain := Terrain.Kind 7

/-- The table `terr.Properties` of the concrete world. -/
def demoProperties : Terrain → TerrainProps
  | Terrain.Air => ⟨[], 0, ⟨[]⟩, ⟨[]⟩⟩
  | Terrain.Bulldoze => ⟨[⟨0, 1⟩], 0, ⟨[]⟩, ⟨[]⟩⟩
  | Terrain.Kind 1 => ⟨[], 0, ⟨[TerrainBit.IsTerrain, TerrainBit.CanBuild]⟩, ⟨[Terrain.Air]⟩⟩
  | Terrain.Kind 2 => ⟨[], 0, ⟨[TerrainBit.IsTerrain, TerrainBit.CanBuild]⟩,
      ⟨[Terrain.Air, Terrain.Kind 1]⟩⟩
  | Terrain.Kind 3 => ⟨[⟨0, 5⟩], 2, ⟨[TerrainBit.CanBuild, TerrainBit.CanBuy]⟩, ⟨[Terrain.Kind 1]⟩⟩
  | Terrain.Kind 4 => ⟨[⟨0, 1⟩], 0, ⟨[TerrainBit.CanBuild, TerrainBit.CanBuy]⟩, ⟨[Terrain.Kind 1]⟩⟩
  | Terrain.Kind 5 => ⟨[⟨0, 8⟩], 0,
      ⟨[TerrainBit.CanBuild, TerrainBit.CanBuy, TerrainBit.IsWarehouse]⟩, ⟨[Terrain.Kind 1]⟩⟩
  | Terrain.Kind 6 => ⟨[], 0, ⟨[TerrainBit.CanBuild]⟩, ⟨[Terrain.Kind 1]⟩⟩
  | Terrain.Kind 7 => ⟨[⟨0, 2⟩], 0,
      ⟨[TerrainBit.IsTerrain, TerrainBit.CanBuild, TerrainBit.CanBuy]⟩, ⟨[Terrain.Kind 1]⟩⟩
  | Terrain.Kind _ => ⟨[], 0, ⟨[]⟩, ⟨[]⟩⟩

/-- A build-radius predicate for the concrete world: some live entity with a
tile and a build radius is within that radius in both coordinates. -/
def demoIsBuildable (x y : Int) (es : List (Entity × Components)) : Bool :=
  es.any (fun p =>
    match p.2.Tile, p.2.BuildRadius with
    | some t, some rad => decide ((x - t.1).natAbs ≤ rad) && decide ((y - t.2).natAbs ≤ rad)
    | _, _ => false)

/-- The collaborators of the concrete world. -/
def demoEnv : Env where
  Properties := demoProperties
  IsBuildable := demoIsBuildable
  MouseInside := fun _ _ => false
  ScreenToGlobal := fun x y => (x, y)
  GlobalToTile := fun x y => ⟨x, y⟩
  Reset := fun _ => ⟨Terrain.Air, false, false⟩
  components := fun x y t _ =>
    ⟨some (x, y), (demoProperties t).TerrainBits.Contains TerrainBit.IsWarehouse,
      if (demoProperties t).TerrainBits.Contains TerrainBit.IsWarehouse then some 3 else none⟩

/-- A left click at pixel `(x, y)`. -/
def clickAt (x y : Int) : Input := ⟨(x, y), false, true, false⟩

/-- A right click at pixel `(x, y)`. -/
def rightClickAt (x y : Int) : Input := ⟨(x, y), false, false, true⟩

/-- A stock with the given population, capacity and amount of resource 0. -/
def demoStock (pop maxPop res0 : Int) : Stock :=
  ⟨pop, maxPop, fun r => if r = 0 then res0 else 0⟩

/-- The concrete world: grass at the tiles (3,4), (5,5) and (9,9), air elsewhere;
the only warehouse at (5,5) with build radius 3; at (3,4) the land use `lu`,
with its entity when `lu` is not air. -/
def demoWorld (sel : Selection) (lu : Terrain) (stock : Stock) : World where
  terrain := ⟨fun x y =>
    if (x = 3 ∧ y = 4) ∨ (x = 5 ∧ y = 5) ∨ (x = 9 ∧ y = 9) then GrassTerrain else Terrain.Air⟩
  terrainEntities := ⟨fun x y =>
    if x = 3 ∧ y = 4 then ⟨1⟩ else if x = 5 ∧ y = 5 then ⟨2⟩
    else if x = 9 ∧ y = 9 then ⟨3⟩ else Entity.zero⟩
  landUse := ⟨fun x y =>
    if x = 5 ∧ y = 5 then Warehouse else if x = 3 ∧ y = 4 then lu else Terrain.Air⟩
  landUseEntities := ⟨fun x y =>
    if x = 5 ∧ y = 5 then ⟨4⟩
    else if x = 3 ∧ y = 4 then (if lu = Terrain.Air then Entity.zero else ⟨5⟩)
    else Entity.zero⟩
  stock := stock
  selection := sel
  entities :=
    [(⟨1⟩, ⟨some (3, 4), false, none⟩), (⟨2⟩, ⟨some (5, 5), false, none⟩),
     (⟨3⟩, ⟨some (9, 9), false, none⟩), (⟨4⟩, ⟨some (5, 5), true, some 3⟩)] ++
    (if lu = Terrain.Air then [] else [(⟨5⟩, ⟨some (3, 4), false, none⟩)])
  created := 5

/-! ### Worlds of the scenarios -/

/-- House selected, the tile (3,4) free, 20 units of resource 0 in stock. -/
def houseWorld : World :=
  demoWorld ⟨House, false, false⟩ Terrain.Air (demoStock 0 10 20)

/-- House selected, the tile (3,4) free, only 3 units of resource 0 in stock. -/
def poorWorld : World :=
  demoWorld ⟨House, false, false⟩ Terrain.Air (demoStock 0 10 3)

/-- House selected with the population one below the capacity. -/
def fullWorld : World :=
  demoWorld ⟨House, false, false⟩ Terrain.Air (demoStock 9 10 20)

/-- Road selected while the population already exceeds the capacity. -/
def crowdedWorld : World :=
  demoWorld ⟨Road, false, false⟩ Terrain.Air (demoStock 12 10 20)

/-- Bulldoze selected, a house on the tile (3,4), 20 units of resource 0. -/
def bulldozeWorld : World :=
  demoWorld ⟨Terrain.Bulldoze, false, false⟩ House (demoStock 0 10 20)

/-- Bulldoze selected, a house on the tile (3,4), an empty ledger. -/
def brokeBulldozeWorld : World :=
  demoWorld ⟨Terrain.Bulldoze, false, false⟩ House (demoStock 0 10 0)

/-- House selected, a tree on the tile (3,4). -/
def treeWorld : World :=
  demoWorld ⟨House, false, false⟩ Tree (demoStock 0 10 20)

/-- Water selected: a terrain kind that may be placed on grass. -/
def waterWorld : World :=
  demoWorld ⟨Water, false, false⟩ Terrain.Air (demoStock 0 10 20)

/-- Quay selected: a terrain kind flagged `CanBuy`. -/
def quayWorld : World :=
  demoWorld ⟨Quay, false, false⟩ Terrain.Air (demoStock 0 10 20)

/-! ### A table that lets `Air` be placed -/

/-- The collaborators of the concrete world, with a table whose entry for `Air`
carries `CanBuild` and may be placed on grass. -/
def airEnv : Env :=
  { demoEnv with
    Properties := fun t =>
      match t with
      | Terrain.Air => ⟨[], 0, ⟨[TerrainBit.CanBuild]⟩, ⟨[GrassTerrain]⟩⟩
      | t => demoProperties t }

/-- `Air` selected, the tile (3,4) free. -/
def airWorld : World :=
  demoWorld ⟨Terrain.Air, false, false⟩ Terrain.Air (demoStock 0 10 20)

/-- An input with the Escape key and the left mouse button both just pressed. -/
def escapeClickAt (x y : Int) : Input := ⟨(x, y), true, true, false⟩

/-! ## The view and the sprite table (`game/resources.go`)

The `int` arithmetic of the view is Go's: 64 bits, wrapping (`wrapInt`).
Sprite indices count up from 0 and are natural numbers. -/

/-- The value of a Go `int` expression whose exact result is `z`: 64 bits,
two's complement, wrapping. -/
def wrapInt (z : Int) : Int := (z + 2 ^ 63) % 2 ^ 64 - 2 ^ 63

/-- Subtraction of Go `int` values. -/
def subInt (a b : Int) : Int := wrapInt (a - b)

/-- Multiplication of Go `int` values. -/
def mulInt (a b : Int) : Int := wrapInt (a * b)

/-- The integer lies in the range of a Go `int`, from `-2^63` to `2^63 - 1`. -/
abbrev fitsInt (z : Int) : Prop := -2 ^ 63 ≤ z ∧ z < 2 ^ 63

/-- The resource `View`: tile size, camera position, and the zoom (a float64). -/
structure View where
  TileWidth : Int
  TileHeight : Int
  X : Int
  Y : Int
  Zoom : Float

/-- The function `View.TileToScreen`. Go parses `(x-y)*v.TileWidth/2` as
`((x-y)*v.TileWidth)/2`; the difference, the sum and the products wrap, and `/`
on `int` truncates toward zero. -/
def View.TileToScreen (v : View) (x y : Int) : Point :=
  ⟨Int.tdiv (mulInt (subInt x y) v.TileWidth) 2,
    Int.tdiv (mulInt (addInt x y) v.TileHeight) 2⟩

/-- The constant `nameUnknown`. -/
def nameUnknown : String := "unknown"

/-- One named sprite of a sheet, as `NewSprites` reads it (`inf.Name`,
`inf.Height`). -/
structure SpriteInfo where
  Name : String
  Height : Int
  deriving DecidableEq, Repr

/-- A sprite sheet after loading: the fields of `util.SpriteSheet` that
`NewSprites` reads, and the size of the sheet's image (`img.Bounds().Dx()`,
`img.Bounds().Dy()`). -/
structure SpriteSheet where
  SpriteWidth : Int
  SpriteHeight : Int
  Sprites : List SpriteInfo
  imageDx : Int
  imageDy : Int
  deriving DecidableEq, Repr

/-- The type `Sprite`. -/
structure Sprite where
  Height : Int
  deriving DecidableEq, Repr

/-- A sprite image: the number of its sheet in `atlas` and the rectangle
`image.Rect(col*w, row*h, col*w+w, row*h+h)` cut out of it. -/
structure SubImage where
  sheet : Nat
  x0 : Int
  y0 : Int
  x1 : Int
  y1 : Int
  deriving DecidableEq, Repr

/-- The type `Sprites`. The map `indices` is a partial function from names to
indices; `atlas` holds the image sizes of the sheets. -/
structure Sprites where
  atlas : List (Int × Int)
  sprites : List SubImage
  infos : List Sprite
  indices : String → Option Nat
  idxUnknown : Nat

/-- The ways `NewSprites` ends without a result on loaded sheets: the fatal
error for a duplicate sprite name, and the run-time panic of an integer
division by zero. -/
inductive Fatal where
  | DuplicateName (name : String)
  | DivideByZero
  deriving DecidableEq, Repr

/-- The local variables of `NewSprites`: `atlas`, `sprites`, `infos`, `indices`
and the counter `index`. -/
structure Loader where
  atlas : List (Int × Int)
  sprites : List SubImage
  infos : List Sprite
  indices : String → Option Nat
  index : Nat

/-- The body of the inner loop of `NewSprites` for the `i`-th sprite of a sheet. -/
def loadSprite (w h cols : Int) (sheetNo : Nat) (st : Loader) (i : Nat) (inf : SpriteInfo) :
    Except Fatal Loader :=
  if (st.indices inf.Name).isSome then
    Except.error (Fatal.DuplicateName inf.Name)
  else if cols = 0 then
    Except.error Fatal.DivideByZero
  else
    let row := Int.tdiv i cols
    let col := Int.tmod i cols
    Except.ok
      { st with
        indices := fun k => if k = inf.Name then some st.index else st.indices k
        sprites := st.sprites ++ [⟨sheetNo, col * w, row * h, col * w + w, row * h + h⟩]
        infos := st.infos ++ [⟨inf.Height⟩]
        index := st.index + 1 }

/-- The inner loop of `NewSprites`: `for i, inf := range sheet.Sprites`. -/
def loadSprites (w h cols : Int) (sheetNo : Nat) :
    Loader → Nat → List SpriteInfo → Except Fatal Loader
  | st, _, [] => Except.ok st
  | st, i, inf :: rest =>
    match loadSprite w h cols sheetNo st i inf with
    | Except.error e => Except.error e
    | Except.ok st' => loadSprites w h cols sheetNo st' (i + 1) rest

/-- The body of the outer loop of `NewSprites` for one loaded sheet. -/
def loadSheet (st : Loader) (sheet : SpriteSheet) : Except Fatal Loader :=
  let st1 := { st with atlas := st.atlas ++ [(sheet.imageDx, sheet.imageDy)] }
  let w := sheet.SpriteWidth
  let h := sheet.SpriteHeight
  if w = 0 ∨ h = 0 then
    Except.error Fatal.DivideByZero
  else
    let cols := Int.tdiv sheet.imageDx w
    loadSprites w h cols st.atlas.length st1 0 sheet.Sprites

/-- The outer loop of `NewSprites` over the loaded sheets, in directory order. -/
def loadSheets : Loader → List SpriteSheet → Except Fatal Loader
  | st, [] => Except.ok st
  | st, sheet :: rest =>
    match loadSheet st sheet with
    | Except.error e => Except.error e
    | Except.ok st' => loadSheets st' rest

/-- The function `NewSprites`, on the sheets that reading the directory, the
JSON files and the images yields (a failure of that reading is fatal before
any sheet is processed further). -/
def NewSprites (sheets : List SpriteSheet) : Except Fatal Sprites :=
  match loadSheets ⟨[], [], [], fun _ => none, 0⟩ sheets with
  | Except.error e => Except.error e
  | Except.ok st =>
    Except.ok
      { atlas := st.atlas
        sprites := st.sprites
        infos := st.infos
        indices := st.indices
        idxUnknown := (st.indices nameUnknown).getD 0 }

/-- The function `Sprites.Get`: the sprite and its info at an index, or nothing
where Go panics on an index out of range. -/
def Sprites.Get (s : Sprites) (idx : Nat) : Option (SubImage × Sprite) :=
  match s.sprites[idx]?, s.infos[idx]? with
  | some img, some info => some (img, info)
  | _, _ => none

/-- The function `Sprites.GetIndex`. -/
def Sprites.GetIndex (s : Sprites) (name : String) : Nat :=
  match s.indices name with
  | some idx => idx
  | none => s.idxUnknown

/-- The sprite names of the sheets in load order. -/
def spriteNames (sheets : List SpriteSheet) : List String :=
  sheets.flatMap (fun sh => sh.Sprites.map (fun inf => inf.Name))

/-- A sheet with a grass and a tree sprite, and no sprite named "unknown". -/
def plainSheet : SpriteSheet := ⟨32, 16, [⟨"grass", 16⟩, ⟨"tree", 24⟩], 64, 16⟩

/-- A sheet whose second sprite is named "unknown". -/
def fallbackSheet : SpriteSheet := ⟨32, 16, [⟨"house", 20⟩, ⟨"unknown", 16⟩], 64, 16⟩

/-- The loader has numbered the names `ns` consecutively from 0: the counter and
the lengths of `sprites` and `infos` are the number of names, and the map sends
a name to `i` exactly when it is the `i`-th name. -/
def Loader.numbered (st : Loader) (ns : List String) : Prop :=
  st.index = ns.length ∧ st.sprites.length = ns.length ∧ st.infos.length = ns.length ∧
  ∀ (a : String) (i : Nat), st.indices a = some i ↔ ns[i]? = some a

/-- The integer `q` is `a / 2` rounded toward zero. -/
def isHalfTowardZero (a q : Int) : Prop :=
  (0 ≤ a → 2 * q ≤ a ∧ a < 2 * q + 2) ∧ (a ≤ 0 → a ≤ 2 * q ∧ 2 * q < a + 2)

/-- The table that `NewSprites` returns on the sheets, or an empty table when
`NewSprites` fails. -/
def loadedSprites (sheets : List SpriteSheet) : Sprites :=
  match NewSprites sheets with
  | Except.ok s => s
  | Except.error _ => ⟨[], [], [], fun _ => none, 0⟩

/-! ## Auxiliary facts -/

theorem checkAbort_cases (E : Env) (inp : Input) (r : Run) :
    (checkAbort E inp r).2 = r ∨ (checkAbort E inp r).2 = r.Reset E := by
  unfold checkAbort
  simp only []
  split_ifs <;> simp

theorem checkAbort_false (E : Env) (inp : Input) (r : Run)
    (h : (checkAbort E inp r).1 = false) : (checkAbort E inp r).2 = r := by
  unfold checkAbort at h ⊢
  simp only [] at h ⊢
  split_ifs at h ⊢
  all_goals simp_all

theorem Run.pay_mem_trace (r : Run) (c : Cost) :
    Event.Pay c ∈ ((r.Pay c).ReplaceButton).trace := by
  simp [Run.Pay, Run.ReplaceButton]

theorem preCheck_cond (E : Env) (inp : Input) (w : World) (hpre : preCheckPasses E inp w) :
    ((E.Properties w.selection.BuildType).TerrainBits.Contains TerrainBit.CanBuy
      && !E.IsBuildable (cursorTile E inp).X (cursorTile E inp).Y w.entities) = false := by
  rcases hpre with h | h <;> simp [h]

/-! ### The branches of `Build.Update`

One equation for every path through the function. -/

theorem Update_aborted (E : Env) (inp : Input) (w : World) (hab : ¬ notAborted E inp w) :
    Update E inp w = (checkAbort E inp ⟨w, []⟩).2 := by
  unfold Update
  simp only []
  rw [if_pos (by simpa using hab)]

theorem Update_preCheck_fails (E : Env) (inp : Input) (w : World)
    (hab : notAborted E inp w) (hpre : ¬ preCheckPasses E inp w) :
    Update E inp w = ⟨w, []⟩ := by
  unfold Update
  simp only []
  rw [if_neg (by simp [hab]), checkAbort_false E inp ⟨w, []⟩ hab]
  simp only [preCheckPasses, not_or, Bool.not_eq_false, Bool.not_eq_true] at hpre
  simp [hpre.1, hpre.2]

theorem Update_bulldoze_protected (E : Env) (inp : Input) (w : World)
    (hab : notAborted E inp w)
    (hb : w.selection.BuildType = Terrain.Bulldoze)
    (hw : (E.Properties (landUseHere E inp w)).TerrainBits.Contains TerrainBit.IsWarehouse = true)
    (hl : isLastWarehouse w = true) :
    Update E inp w = ⟨w, []⟩ := by
  unfold Update
  simp only []
  rw [if_neg (by simp [hab]), checkAbort_false E inp ⟨w, []⟩ hab]
  simp only [landUseHere] at hw
  simp [hb, hw, hl]

theorem Update_bulldoze_demolish (E : Env) (inp : Input) (w : World)
    (hab : notAborted E inp w) (hpre : preCheckPasses E inp w)
    (hb : w.selection.BuildType = Terrain.Bulldoze)
    (hprot : ¬ ((E.Properties (landUseHere E inp w)).TerrainBits.Contains
        TerrainBit.IsWarehouse = true ∧ isLastWarehouse w = true))
    (hc : (E.Properties (landUseHere E inp w)).TerrainBits.Contains TerrainBit.CanBuild = true) :
    Update E inp w =
      (((((⟨w, []⟩ : Run).RemoveEntity (landUseEntityHere E inp w)).LandUseEntitiesSet
        (cursorTile E inp).X (cursorTile E inp).Y Entity.zero).LandUseSet
        (cursorTile E inp).X (cursorTile E inp).Y Terrain.Air).Pay
        (E.Properties Terrain.Bulldoze).BuildCost).ReplaceButton := by
  unfold Update
  simp only []
  rw [if_neg (by simp [hab]), checkAbort_false E inp ⟨w, []⟩ hab]
  have hp := preCheck_cond E inp w hpre
  simp only [landUseHere] at hc hprot
  have hprot2 : ((E.Properties (w.landUse.Get (cursorTile E inp).X
      (cursorTile E inp).Y)).TerrainBits.Contains TerrainBit.IsWarehouse
      && isLastWarehouse w) = false := by
    simpa using hprot
  rw [hb] at hp
  simp [hp, hb, hc, hprot2]

theorem Update_bulldoze_inert (E : Env) (inp : Input) (w : World)
    (hab : notAborted E inp w)
    (hb : w.selection.BuildType = Terrain.Bulldoze)
    (hc : (E.Properties (landUseHere E inp w)).TerrainBits.Contains TerrainBit.CanBuild = false) :
    Update E inp w = ⟨w, []⟩ := by
  unfold Update
  simp only []
  rw [if_neg (by simp [hab]), checkAbort_false E inp ⟨w, []⟩ hab]
  simp only [landUseHere] at hc
  simp only [hb, hc]
  split_ifs <;> simp_all

theorem Update_cannot_pay (E : Env) (inp : Input) (w : World)
    (hab : notAborted E inp w) (hpre : preCheckPasses E inp w)
    (hb : w.selection.BuildType ≠ Terrain.Bulldoze)
    (hpay : w.stock.CanPay (selProps E w).BuildCost = false) :
    Update E inp w = ⟨w, [Event.CanPay (selProps E w).BuildCost false]⟩ := by
  unfold Update
  simp only []
  rw [if_neg (by simp [hab]), checkAbort_false E inp ⟨w, []⟩ hab]
  simp only [selProps] at hpay
  simp [preCheck_cond E inp w hpre, hb, hpay, Run.CanPay]

theorem Update_over_cap (E : Env) (inp : Input) (w : World)
    (hab : notAborted E inp w) (hpre : preCheckPasses E inp w)
    (hb : w.selection.BuildType ≠ Terrain.Bulldoze)
    (hpay : w.stock.CanPay (selProps E w).BuildCost = true)
    (hcap : overCap w.stock (selProps E w) = true) :
    Update E inp w = ⟨w, [Event.CanPay (selProps E w).BuildCost true]⟩ := by
  unfold Update
  simp only []
  rw [if_neg (by simp [hab]), checkAbort_false E inp ⟨w, []⟩ hab]
  simp only [selProps] at hpay hcap
  simp [preCheck_cond E inp w hpre, hb, hpay, hcap, Run.CanPay]

theorem Update_terrain_place (E : Env) (inp : Input) (w : World)
    (hab : notAborted E inp w) (hpre : preCheckPasses E inp w)
    (hb : w.selection.BuildType ≠ Terrain.Bulldoze)
    (hpay : w.stock.CanPay (selProps E w).BuildCost = true)
    (hcap : overCap w.stock (selProps E w) = false)
    (ht : (selProps E w).TerrainBits.Contains TerrainBit.IsTerrain = true)
    (hl : terrainLegal E inp w) :
    Update E inp w =
      (((Run.FactorySet E ⟨w, [Event.CanPay (selProps E w).BuildCost true]⟩
        (cursorTile E inp).X (cursorTile E inp).Y w.selection.BuildType
        w.selection.RandSprite).Pay (selProps E w).BuildCost).ReplaceButton) := by
  unfold Update
  simp only []
  rw [if_neg (by simp [hab]), checkAbort_false E inp ⟨w, []⟩ hab]
  simp only [selProps] at hpay hcap ht
  have hl2 : ((E.Properties w.selection.BuildType).BuildOn.Contains
      (w.terrain.Get (cursorTile E inp).X (cursorTile E inp).Y) ||
      (w.selection.AllowRemove &&
        w.terrain.Get (cursorTile E inp).X (cursorTile E inp).Y != Terrain.Air &&
        w.terrain.Get (cursorTile E inp).X (cursorTile E inp).Y != w.selection.BuildType))
      = true := by
    rcases hl with h | ⟨h1, h2, h3⟩
    · simp [h]
    · simp [h1, h2, h3]
  simp [preCheck_cond E inp w hpre, hb, hpay, hcap, ht, hl2, Run.CanPay]

theorem Update_terrain_illegal (E : Env) (inp : Input) (w : World)
    (hab : notAborted E inp w) (hpre : preCheckPasses E inp w)
    (hb : w.selection.BuildType ≠ Terrain.Bulldoze)
    (hpay : w.stock.CanPay (selProps E w).BuildCost = true)
    (hcap : overCap w.stock (selProps E w) = false)
    (ht : (selProps E w).TerrainBits.Contains TerrainBit.IsTerrain = true)
    (hl : ¬ terrainLegal E inp w) :
    Update E inp w = ⟨w, [Event.CanPay (selProps E w).BuildCost true]⟩ := by
  unfold Update
  simp only []
  rw [if_neg (by simp [hab]), checkAbort_false E inp ⟨w, []⟩ hab]
  simp only [selProps] at hpay hcap ht
  have hl2 : ((E.Properties w.selection.BuildType).BuildOn.Contains
      (w.terrain.Get (cursorTile E inp).X (cursorTile E inp).Y) ||
      (w.selection.AllowRemove &&
        w.terrain.Get (cursorTile E inp).X (cursorTile E inp).Y != Terrain.Air &&
        w.terrain.Get (cursorTile E inp).X (cursorTile E inp).Y != w.selection.BuildType))
      = false := by
    by_contra hne
    apply hl
    simp only [Bool.not_eq_false, Bool.or_eq_true, Bool.and_eq_true, bne_iff_ne] at hne
    rcases hne with h | ⟨⟨h1, h2⟩, h3⟩
    · exact Or.inl h
    · exact Or.inr ⟨h1, h2, h3⟩
  simp [preCheck_cond E inp w hpre, hb, hpay, hcap, ht, hl2, Run.CanPay]

theorem Update_landUse_wrong_terrain (E : Env) (inp : Input) (w : World)
    (hab : notAborted E inp w) (hpre : preCheckPasses E inp w)
    (hb : w.selection.BuildType ≠ Terrain.Bulldoze)
    (hpay : w.stock.CanPay (selProps E w).BuildCost = true)
    (hcap : overCap w.stock (selProps E w) = false)
    (ht : (selProps E w).TerrainBits.Contains TerrainBit.IsTerrain = false)
    (hon : (selProps E w).BuildOn.Contains (terrainHere E inp w) = false) :
    Update E inp w = ⟨w, [Event.CanPay (selProps E w).BuildCost true]⟩ := by
  unfold Update
  simp only []
  rw [if_neg (by simp [hab]), checkAbort_false E inp ⟨w, []⟩ hab]
  simp only [selProps, terrainHere] at hpay hcap ht hon
  simp [preCheck_cond E inp w hpre, hb, hpay, hcap, ht, hon, Run.CanPay]

theorem Update_landUse_free (E : Env) (inp : Input) (w : World)
    (hab : notAborted E inp w) (hpre : preCheckPasses E inp w)
    (hb : w.selection.BuildType ≠ Terrain.Bulldoze)
    (hpay : w.stock.CanPay (selProps E w).BuildCost = true)
    (hcap : overCap w.stock (selProps E w) = false)
    (ht : (selProps E w).TerrainBits.Contains TerrainBit.IsTerrain = false)
    (hon : (selProps E w).BuildOn.Contains (terrainHere E inp w) = true)
    (hair : landUseHere E inp w = Terrain.Air) :
    Update E inp w =
      (((Run.FactorySet E ⟨w, [Event.CanPay (selProps E w).BuildCost true]⟩
        (cursorTile E inp).X (cursorTile E inp).Y w.selection.BuildType
        w.selection.RandSprite).Pay (selProps E w).BuildCost).ReplaceButton) := by
  unfold Update
  simp only []
  rw [if_neg (by simp [hab]), checkAbort_false E inp ⟨w, []⟩ hab]
  simp only [selProps, terrainHere, landUseHere] at hpay hcap ht hon hair
  simp [preCheck_cond E inp w hpre, hb, hpay, hcap, ht, hon, hair, Run.CanPay]

theorem Update_landUse_replace (E : Env) (inp : Input) (w : World)
    (hab : notAborted E inp w) (hpre : preCheckPasses E inp w)
    (hb : w.selection.BuildType ≠ Terrain.Bulldoze)
    (hpay : w.stock.CanPay (selProps E w).BuildCost = true)
    (hcap : overCap w.stock (selProps E w) = false)
    (ht : (selProps E w).TerrainBits.Contains TerrainBit.IsTerrain = false)
    (hon : (selProps E w).BuildOn.Contains (terrainHere E inp w) = true)
    (hair : landUseHere E inp w ≠ Terrain.Air)
    (hnat : (E.Properties (landUseHere E inp w)).TerrainBits.Contains TerrainBit.CanBuy = false)
    (hbuy : (selProps E w).TerrainBits.Contains TerrainBit.CanBuy = true) :
    Update E inp w =
      (((Run.FactorySet E
        ((((⟨w, [Event.CanPay (selProps E w).BuildCost true]⟩ : Run).LandUseSet
          (cursorTile E inp).X (cursorTile E inp).Y Terrain.Air).RemoveEntity
          (landUseEntityHere E inp w)).LandUseEntitiesSet
          (cursorTile E inp).X (cursorTile E inp).Y Entity.zero)
        (cursorTile E inp).X (cursorTile E inp).Y w.selection.BuildType
        w.selection.RandSprite).Pay (selProps E w).BuildCost).ReplaceButton) := by
  unfold Update
  simp only []
  rw [if_neg (by simp [hab]), checkAbort_false E inp ⟨w, []⟩ hab]
  have hbld : E.IsBuildable (cursorTile E inp).X (cursorTile E inp).Y w.entities = true := by
    rcases hpre with h | h
    · rw [hbuy] at h
      exact absurd h (by decide)
    · exact h
  simp only [selProps, terrainHere, landUseHere] at hpay hcap ht hon hair hnat hbuy
  simp [hbld, hb, hpay, hcap, ht, hon, hair, hnat, hbuy, Run.CanPay, Run.LandUseSet]

theorem Update_landUse_occupied (E : Env) (inp : Input) (w : World)
    (hab : notAborted E inp w) (hpre : preCheckPasses E inp w)
    (hb : w.selection.BuildType ≠ Terrain.Bulldoze)
    (hpay : w.stock.CanPay (selProps E w).BuildCost = true)
    (hcap : overCap w.stock (selProps E w) = false)
    (ht : (selProps E w).TerrainBits.Contains TerrainBit.IsTerrain = false)
    (hl : ¬ landUseLegal E inp w) :
    Update E inp w = ⟨w, [Event.CanPay (selProps E w).BuildCost true]⟩ := by
  unfold Update
  simp only []
  rw [if_neg (by simp [hab]), checkAbort_false E inp ⟨w, []⟩ hab]
  simp only [selProps, terrainHere, landUseHere, landUseLegal, not_or, not_and,
    Bool.not_eq_true] at hpay hcap ht hl
  obtain ⟨hl1, hl2⟩ := hl
  have hl3 : (w.landUse.Get (cursorTile E inp).X (cursorTile E inp).Y == Terrain.Air ||
      (!(E.Properties (w.landUse.Get (cursorTile E inp).X
        (cursorTile E inp).Y)).TerrainBits.Contains TerrainBit.CanBuy &&
        (E.Properties w.selection.BuildType).TerrainBits.Contains TerrainBit.CanBuy)) = false := by
    by_cases h : (E.Properties (w.landUse.Get (cursorTile E inp).X
        (cursorTile E inp).Y)).TerrainBits.Contains TerrainBit.CanBuy = false
    · simp [hl1, h, hl2 h]
    · simp only [Bool.not_eq_false] at h
      simp [hl1, h]
  simp only [preCheck_cond E inp w hpre, hb, hpay, hcap, ht, Run.CanPay]
  simp [hb, hl3]

theorem checkAbort_fst_congr (E : Env) (inp : Input) (r r' : Run)
    (h : r.world.selection = r'.world.selection) :
    (checkAbort E inp r).1 = (checkAbort E inp r').1 := by
  unfold checkAbort
  simp only []
  rw [h]
  split_ifs <;> rfl

theorem Update_terrain_placed_iff (E : Env) (inp : Input) (w : World)
    (hab : notAborted E inp w) (hpre : preCheckPasses E inp w)
    (hb : w.selection.BuildType ≠ Terrain.Bulldoze)
    (hpay : w.stock.CanPay (selProps E w).BuildCost = true)
    (hcap : overCap w.stock (selProps E w) = false)
    (ht : (selProps E w).TerrainBits.Contains TerrainBit.IsTerrain = true) :
    (Update E inp w).placed = true ↔ terrainLegal E inp w := by
  by_cases hl : terrainLegal E inp w
  · rw [Update_terrain_place E inp w hab hpre hb hpay hcap ht hl]
    simp [hl, Run.placed, Run.FactorySet, Run.Pay, Run.ReplaceButton, Event.isFactorySet]
  · rw [Update_terrain_illegal E inp w hab hpre hb hpay hcap ht hl]
    simp [hl, Run.placed, Event.isFactorySet]

/-- On the construction branch a payment is checked: when the selected type is
not Bulldoze, every `Pay c` of the tick comes after a `CanPay c` that returned
true, which is the first call of the tick. -/
theorem Update_construction_pay_checked (E : Env) (inp : Input) (w : World)
    (hb : w.selection.BuildType ≠ Terrain.Bulldoze) (c : Cost)
    (h : Event.Pay c ∈ (Update E inp w).trace) :
    w.stock.CanPay c = true ∧ (Update E inp w).trace.head? = some (Event.CanPay c true) := by
  generalize hr : Update E inp w = r at h ⊢
  unfold Update at hr
  simp only [] at hr
  by_cases hab : (checkAbort E inp ⟨w, []⟩).1 = true
  · rw [if_pos hab] at hr
    rcases checkAbort_cases E inp ⟨w, []⟩ with h0 | h0
    all_goals rw [h0] at hr
    all_goals subst hr
    all_goals simp [Run.Reset] at h
  · rw [if_neg hab, checkAbort_false E inp ⟨w, []⟩ (by simpa using hab)] at hr
    simp only [] at hr
    split_ifs at hr
    all_goals subst hr
    all_goals simp_all [Run.CanPay, Run.Pay, Run.ReplaceButton, Run.FactorySet, Run.LandUseSet,
      Run.RemoveEntity, Run.LandUseEntitiesSet]

/-! ## Properties of `Build.Update` -/

/-- C1: refusals are atomic. If a run of `Update` makes no `stock.Pay` call, then
the terrain and land-use grids, both entity grids, the live entities and the
stock are what they were before, and no entity removal, grid `Set` or factory
`Set` was called. -/
theorem Update_refusal_atomic (E : Env) (inp : Input) (w : World)
    (h : ∀ c, Event.Pay c ∉ (Update E inp w).trace) :
    World.sameState w (Update E inp w).world ∧
    (∀ ev ∈ (Update E inp w).trace, ev.isLayerWrite = false) := by
  generalize hr : Update E inp w = r at h ⊢
  unfold Update at hr
  simp only [] at hr
  by_cases hab : (checkAbort E inp ⟨w, []⟩).1 = true
  · rw [if_pos hab] at hr
    rcases checkAbort_cases E inp ⟨w, []⟩ with h0 | h0
    all_goals rw [h0] at hr
    all_goals subst hr
    all_goals simp [World.sameState, Run.Reset, Event.isLayerWrite]
  · rw [if_neg hab, checkAbort_false E inp ⟨w, []⟩ (by simpa using hab)] at hr
    simp only [] at hr
    split_ifs at hr
    all_goals subst hr
    all_goals first
      | exact absurd (Run.pay_mem_trace _ _) (h _)
      | simp [World.sameState, Run.CanPay, Event.isLayerWrite]

/-- Witness of C1: a right click cancels the tick; nothing is paid and nothing
changes. -/
theorem Update_refusal_atomic_witness :
    (∀ c, Event.Pay c ∉ (Update demoEnv (rightClickAt 3 4) houseWorld).trace) ∧
    World.sameState houseWorld (Update demoEnv (rightClickAt 3 4) houseWorld).world ∧
    (∀ ev ∈ (Update demoEnv (rightClickAt 3 4) houseWorld).trace, ev.isLayerWrite = false) :=
  have ht : (Update demoEnv (rightClickAt 3 4) houseWorld).trace = [Event.SelectionReset] := by
    decide
  have h : ∀ c, Event.Pay c ∉ (Update demoEnv (rightClickAt 3 4) houseWorld).trace := by
    intro c
    rw [ht]
    simp
  ⟨h, Update_refusal_atomic demoEnv (rightClickAt 3 4) houseWorld h⟩

/-- C2, evaluated where the code breaks it: with Bulldoze selected, a house on
the tile and an empty ledger, `CanPay` of the Bulldoze cost is false, yet
`Update` calls `Pay` with that cost, no `CanPay` call is made in the tick, and
resource 0 goes from 0 to -1. -/
theorem bulldoze_pays_unchecked :
    notAborted demoEnv (clickAt 3 4) brokeBulldozeWorld ∧
    brokeBulldozeWorld.stock.CanPay (demoEnv.Properties Terrain.Bulldoze).BuildCost = false ∧
    (Update demoEnv (clickAt 3 4) brokeBulldozeWorld).trace =
      [Event.RemoveEntity ⟨5⟩, Event.LandUseEntitiesSet 3 4 Entity.zero,
       Event.LandUseSet 3 4 Terrain.Air, Event.Pay [⟨0, 1⟩], Event.ReplaceButton] ∧
    (Update demoEnv (clickAt 3 4) brokeBulldozeWorld).trace.any Event.isCanPay = false ∧
    brokeBulldozeWorld.stock.Res 0 = 0 ∧
    (Update demoEnv (clickAt 3 4) brokeBulldozeWorld).world.stock.Res 0 = -1 := by
  decide

/-- C3: last-warehouse protection. When exactly one warehouse entity is live, a
tick that is not skipped, with Bulldoze selected and a target land use flagged
`IsWarehouse`, removes no entity, leaves the live entities, `LandUse`,
`LandUseEntities` and the stock unchanged, and the warehouse count is still 1;
`isLastWarehouse` is true exactly when the count is at most 1. -/
theorem bulldoze_last_warehouse_refused (E : Env) (inp : Input) (w : World)
    (hab : notAborted E inp w)
    (hb : w.selection.BuildType = Terrain.Bulldoze)
    (hw : (E.Properties (landUseHere E inp w)).TerrainBits.Contains TerrainBit.IsWarehouse = true)
    (hone : warehouseCount w = 1) :
    (∀ e, Event.RemoveEntity e ∉ (Update E inp w).trace) ∧
    (Update E inp w).world.entities = w.entities ∧
    (Update E inp w).world.landUse = w.landUse ∧
    (Update E inp w).world.landUseEntities = w.landUseEntities ∧
    (Update E inp w).world.stock = w.stock ∧
    warehouseCount (Update E inp w).world = 1 ∧
    (∀ v : World, isLastWarehouse v = true ↔ warehouseCount v ≤ 1) := by
  have hl : isLastWarehouse w = true := by simp [isLastWarehouse, hone]
  rw [Update_bulldoze_protected E inp w hab hb hw hl]
  simp [hone, isLastWarehouse]

/-- Witness of C3: bulldozing the only warehouse, at the tile (5,5). -/
theorem bulldoze_last_warehouse_refused_witness :
    notAborted demoEnv (clickAt 5 5) bulldozeWorld ∧
    bulldozeWorld.selection.BuildType = Terrain.Bulldoze ∧
    (demoEnv.Properties (landUseHere demoEnv (clickAt 5 5) bulldozeWorld)).TerrainBits.Contains
      TerrainBit.IsWarehouse = true ∧
    warehouseCount bulldozeWorld = 1 ∧
    warehouseCount (Update demoEnv (clickAt 5 5) bulldozeWorld).world = 1 :=
  ⟨by decide, by decide, by decide, by decide,
    (bulldoze_last_warehouse_refused demoEnv (clickAt 5 5) bulldozeWorld
      (by decide) (by decide) (by decide) (by decide)).2.2.2.2.2.1⟩

/-- C4 as stated fails: with Road selected (which grants no population) and a
population of 12 over a capacity of 10, the sum exceeds the capacity, yet the
tick builds the road at (3,4) and charges the stock. -/
theorem population_cap_counterexample :
    notAborted demoEnv (clickAt 3 4) crowdedWorld ∧
    crowdedWorld.selection.BuildType ≠ Terrain.Bulldoze ∧
    crowdedWorld.stock.Population + (selProps demoEnv crowdedWorld).Population
      > crowdedWorld.stock.MaxPopulation ∧
    addInt crowdedWorld.stock.Population (selProps demoEnv crowdedWorld).Population
      > crowdedWorld.stock.MaxPopulation ∧
    crowdedWorld.landUse.Get 3 4 = Terrain.Air ∧
    (Update demoEnv (clickAt 3 4) crowdedWorld).world.landUse.Get 3 4 = Road ∧
    crowdedWorld.stock.Res 0 = 20 ∧
    (Update demoEnv (clickAt 3 4) crowdedWorld).world.stock.Res 0 = 19 ∧
    (Update demoEnv (clickAt 3 4) crowdedWorld).world.stock ≠ crowdedWorld.stock ∧
    (Update demoEnv (clickAt 3 4) crowdedWorld).world.landUse ≠ crowdedWorld.landUse :=
  ⟨by decide, by decide, by decide, by decide, by decide, by decide, by decide, by decide,
    fun h => absurd (congrArg (fun s => s.Res 0) h) (by decide),
    fun h => absurd (congrArg (fun g => g.Get 3 4) h) (by decide)⟩

/-- C4, amended: in a tick that is not skipped, with a selected type other than
Bulldoze that grants population (`Population > 0`) and for which
`stock.Population + int(p.Population) > stock.MaxPopulation`, `Update` refuses:
the world is unchanged and no layer write and no payment is made. -/
theorem population_cap_refused (E : Env) (inp : Input) (w : World)
    (hab : notAborted E inp w)
    (hb : w.selection.BuildType ≠ Terrain.Bulldoze)
    (hpos : (selProps E w).Population > 0)
    (hover : addInt w.stock.Population (selProps E w).Population > w.stock.MaxPopulation) :
    (Update E inp w).world = w ∧
    (∀ ev ∈ (Update E inp w).trace, ev.isLayerWrite = false ∧ ev.isPay = false) := by
  have hcap : overCap w.stock (selProps E w) = true := by
    simp [overCap, hpos, hover]
  by_cases hpre : preCheckPasses E inp w
  · cases hpay : w.stock.CanPay (selProps E w).BuildCost
    · rw [Update_cannot_pay E inp w hab hpre hb hpay]
      simp [Event.isLayerWrite, Event.isPay]
    · rw [Update_over_cap E inp w hab hpre hb hpay hcap]
      simp [Event.isLayerWrite, Event.isPay]
  · rw [Update_preCheck_fails E inp w hab hpre]
    simp

/-- Witness of C4, amended: a house (population 2) with 9 of 10 inhabitants. -/
theorem population_cap_refused_witness :
    notAborted demoEnv (clickAt 3 4) fullWorld ∧
    fullWorld.selection.BuildType ≠ Terrain.Bulldoze ∧
    (selProps demoEnv fullWorld).Population > 0 ∧
    addInt fullWorld.stock.Population (selProps demoEnv fullWorld).Population
      > fullWorld.stock.MaxPopulation ∧
    (Update demoEnv (clickAt 3 4) fullWorld).world = fullWorld :=
  ⟨by decide, by decide, by decide, by decide,
    (population_cap_refused demoEnv (clickAt 3 4) fullWorld
      (by decide) (by decide) (by decide) (by decide)).1⟩

/-- C5: refusal on insufficient funds. In a tick that is not skipped, with a
selected type other than Bulldoze whose `BuildCost` the stock cannot pay, the
world is unchanged (terrain, land use, both entity grids, live entities, stock)
and no layer write and no payment is made. -/
theorem insufficient_funds_refused (E : Env) (inp : Input) (w : World)
    (hab : notAborted E inp w)
    (hb : w.selection.BuildType ≠ Terrain.Bulldoze)
    (hpay : w.stock.CanPay (selProps E w).BuildCost = false) :
    (Update E inp w).world = w ∧
    World.sameState w (Update E inp w).world ∧
    (∀ ev ∈ (Update E inp w).trace, ev.isLayerWrite = false ∧ ev.isPay = false) := by
  by_cases hpre : preCheckPasses E inp w
  · rw [Update_cannot_pay E inp w hab hpre hb hpay]
    simp [Event.isLayerWrite, Event.isPay, World.sameState]
  · rw [Update_preCheck_fails E inp w hab hpre]
    simp [World.sameState]

/-- Witness of C5: a house costs 5, the stock holds 3. -/
theorem insufficient_funds_refused_witness :
    notAborted demoEnv (clickAt 3 4) poorWorld ∧
    poorWorld.selection.BuildType ≠ Terrain.Bulldoze ∧
    poorWorld.stock.CanPay (selProps demoEnv poorWorld).BuildCost = false ∧
    (Update demoEnv (clickAt 3 4) poorWorld).world = poorWorld :=
  ⟨by decide, by decide, by decide,
    (insufficient_funds_refused demoEnv (clickAt 3 4) poorWorld
      (by decide) (by decide) (by decide)).1⟩

/-- C6: successful build. In a tick that is not skipped, with a selected land-use
type `T` other than Bulldoze, the pre-check passing (or `T` lacking `CanBuy`),
an affordable cost, the population cap respected, the terrain at the tile in
`T.BuildOn` and the land use at the tile `Air`: the calls are exactly
`CanPay`, one factory `Set` with (tile, `T`, `RandSprite`), one `Pay` of
`T.BuildCost` and the UI refresh, no entity is removed, `LandUse` at the tile is
`T`, the entity reference there is a live entity, and the stock is the old
stock charged `T.BuildCost` once. -/
theorem build_succeeds (E : Env) (inp : Input) (w : World)
    (hab : notAborted E inp w)
    (ht : (selProps E w).TerrainBits.Contains TerrainBit.IsTerrain = false)
    (hb : w.selection.BuildType ≠ Terrain.Bulldoze)
    (hpre : preCheckPasses E inp w)
    (hpay : w.stock.CanPay (selProps E w).BuildCost = true)
    (hcap : overCap w.stock (selProps E w) = false)
    (hon : (selProps E w).BuildOn.Contains (terrainHere E inp w) = true)
    (hair : landUseHere E inp w = Terrain.Air) :
    (Update E inp w).trace =
      [Event.CanPay (selProps E w).BuildCost true,
       Event.FactorySet (cursorTile E inp).X (cursorTile E inp).Y w.selection.BuildType
         w.selection.RandSprite,
       Event.Pay (selProps E w).BuildCost, Event.ReplaceButton] ∧
    (Update E inp w).world.entities =
      w.entities ++ [(⟨w.created + 1⟩, E.components (cursorTile E inp).X (cursorTile E inp).Y
        w.selection.BuildType w.selection.RandSprite)] ∧
    landUseHere E inp (Update E inp w).world = w.selection.BuildType ∧
    landUseEntityHere E inp (Update E inp w).world ≠ Entity.zero ∧
    (Update E inp w).world.isLive (landUseEntityHere E inp (Update E inp w).world) = true ∧
    (Update E inp w).world.stock = w.stock.Pay (selProps E w).BuildCost := by
  rw [Update_landUse_free E inp w hab hpre hb hpay hcap ht hon hair]
  simp only [selProps] at ht
  simp [Run.FactorySet, Run.Pay, Run.ReplaceButton, ht, Grid.Get, Grid.Set, World.isLive,
    Entity.zero]

/-- Witness of C6: House, with `BuildOn = {GrassTerrain}`, on the tile (3,4). -/
theorem build_succeeds_witness :
    notAborted demoEnv (clickAt 3 4) houseWorld ∧
    (selProps demoEnv houseWorld).BuildOn = ⟨[GrassTerrain]⟩ ∧
    houseWorld.terrain.Get 3 4 = GrassTerrain ∧
    houseWorld.landUse.Get 3 4 = Terrain.Air ∧
    (Update demoEnv (clickAt 3 4) houseWorld).trace =
      [Event.CanPay [⟨0, 5⟩] true, Event.FactorySet 3 4 House false,
       Event.Pay [⟨0, 5⟩], Event.ReplaceButton] ∧
    (Update demoEnv (clickAt 3 4) houseWorld).world.landUse.Get 3 4 = House ∧
    (Update demoEnv (clickAt 3 4) houseWorld).world.landUseEntities.Get 3 4 = ⟨6⟩ ∧
    (Update demoEnv (clickAt 3 4) houseWorld).world.stock.Res 0 = 15 :=
  have h := build_succeeds demoEnv (clickAt 3 4) houseWorld
    (by decide) (by decide) (by decide) (by decide) (by decide) (by decide) (by decide)
    (by decide)
  ⟨by decide, by decide, by decide, by decide, h.1, h.2.2.1, by decide, by decide⟩

/-- C7: the bulldoze branch. In a tick that is not skipped, with Bulldoze
selected and the pre-check passing, let `L` be the land use at the tile.
If `L` is flagged `CanBuild` and is not a protected last warehouse, `Update`
removes the entity that `LandUseEntities` holds at the tile, sets that cell to
the zero handle, sets `LandUse` at the tile to `Air` and pays the `BuildCost` of
Bulldoze, in this order. If `L` is not flagged `CanBuild`, nothing changes and
nothing is called. In every case no `CanPay` and no factory `Set` is called. -/
theorem bulldoze_branch (E : Env) (inp : Input) (w : World)
    (hab : notAborted E inp w)
    (hb : w.selection.BuildType = Terrain.Bulldoze)
    (hpre : preCheckPasses E inp w) :
    ((E.Properties (landUseHere E inp w)).TerrainBits.Contains TerrainBit.CanBuild = true →
      ¬ ((E.Properties (landUseHere E inp w)).TerrainBits.Contains TerrainBit.IsWarehouse = true
          ∧ isLastWarehouse w = true) →
      (Update E inp w).trace =
        [Event.RemoveEntity (landUseEntityHere E inp w),
         Event.LandUseEntitiesSet (cursorTile E inp).X (cursorTile E inp).Y Entity.zero,
         Event.LandUseSet (cursorTile E inp).X (cursorTile E inp).Y Terrain.Air,
         Event.Pay (E.Properties Terrain.Bulldoze).BuildCost, Event.ReplaceButton] ∧
      (Update E inp w).world.entities =
        w.entities.filter (fun p => p.1 ≠ landUseEntityHere E inp w) ∧
      (Update E inp w).world.isLive (landUseEntityHere E inp w) = false ∧
      landUseEntityHere E inp (Update E inp w).world = Entity.zero ∧
      landUseHere E inp (Update E inp w).world = Terrain.Air ∧
      (Update E inp w).world.stock = w.stock.Pay (E.Properties Terrain.Bulldoze).BuildCost) ∧
    ((E.Properties (landUseHere E inp w)).TerrainBits.Contains TerrainBit.CanBuild = false →
      (Update E inp w).world = w ∧ (Update E inp w).trace = []) ∧
    (∀ ev ∈ (Update E inp w).trace, ev.isCanPay = false ∧ ev.isFactorySet = false) := by
  refine ⟨?_, ?_, ?_⟩
  · intro hc hprot
    rw [Update_bulldoze_demolish E inp w hab hpre hb hprot hc]
    simp [Run.RemoveEntity, Run.LandUseEntitiesSet, Run.LandUseSet, Run.Pay, Run.ReplaceButton,
      Grid.Get, Grid.Set, World.isLive]
  · intro hc
    rw [Update_bulldoze_inert E inp w hab hb hc]
    simp
  · cases hc : (E.Properties (landUseHere E inp w)).TerrainBits.Contains TerrainBit.CanBuild
    · rw [Update_bulldoze_inert E inp w hab hb hc]
      simp
    · by_cases hprot : ((E.Properties (landUseHere E inp w)).TerrainBits.Contains
          TerrainBit.IsWarehouse = true ∧ isLastWarehouse w = true)
      · rw [Update_bulldoze_protected E inp w hab hb hprot.1 hprot.2]
        simp
      · rw [Update_bulldoze_demolish E inp w hab hpre hb hprot hc]
        simp [Run.RemoveEntity, Run.LandUseEntitiesSet, Run.LandUseSet, Run.Pay,
          Run.ReplaceButton, Event.isCanPay, Event.isFactorySet]

/-- Witness of C7: bulldozing the house on the tile (3,4) costs the Bulldoze
price of 1, not the house price of 5. -/
theorem bulldoze_branch_witness :
    notAborted demoEnv (clickAt 3 4) bulldozeWorld ∧
    bulldozeWorld.selection.BuildType = Terrain.Bulldoze ∧
    preCheckPasses demoEnv (clickAt 3 4) bulldozeWorld ∧
    bulldozeWorld.landUse.Get 3 4 = House ∧
    (Update demoEnv (clickAt 3 4) bulldozeWorld).trace =
      [Event.RemoveEntity ⟨5⟩, Event.LandUseEntitiesSet 3 4 Entity.zero,
       Event.LandUseSet 3 4 Terrain.Air, Event.Pay [⟨0, 1⟩], Event.ReplaceButton] ∧
    (Update demoEnv (clickAt 3 4) bulldozeWorld).world.landUse.Get 3 4 = Terrain.Air ∧
    (Update demoEnv (clickAt 3 4) bulldozeWorld).world.stock.Res 0 = 19 :=
  have h := (bulldoze_branch demoEnv (clickAt 3 4) bulldozeWorld
    (by decide) (by decide) (by decide)).1 (by decide) (by decide)
  ⟨by decide, by decide, by decide, by decide, h.1, h.2.2.2.2.1, by decide⟩

/-- C8 as stated fails: the tick is not skipped, the house is affordable and
within the cap, grass at the tile (9,9) is in its `BuildOn`, the land use there
is `Air`, yet nothing is placed: the house carries `CanBuy` and the tile is
outside every build radius, so the pre-check returns first. -/
theorem landUse_occupancy_counterexample :
    notAborted demoEnv (clickAt 9 9) houseWorld ∧
    houseWorld.selection.BuildType ≠ Terrain.Bulldoze ∧
    houseWorld.stock.CanPay (selProps demoEnv houseWorld).BuildCost = true ∧
    overCap houseWorld.stock (selProps demoEnv houseWorld) = false ∧
    (selProps demoEnv houseWorld).TerrainBits.Contains TerrainBit.IsTerrain = false ∧
    (selProps demoEnv houseWorld).BuildOn.Contains
      (terrainHere demoEnv (clickAt 9 9) houseWorld) = true ∧
    landUseHere demoEnv (clickAt 9 9) houseWorld = Terrain.Air ∧
    (Update demoEnv (clickAt 9 9) houseWorld).placed = false ∧
    (Update demoEnv (clickAt 9 9) houseWorld).trace = [] := by
  decide

/-- C8, amended: land-use occupancy rule. In a tick that is not skipped and
passes the build-radius pre-check, affordable and within the cap, with a
land-use type `T` other than Bulldoze whose `BuildOn` contains the terrain at
the tile, the factory is called if and only if the land use `L` at the tile is
`Air`, or `L` lacks `CanBuy` and `T` has `CanBuy`. When placed with `L` not
`Air`, the land use is set to `Air`, the entity of the tile is removed and its
cell cleared before the factory is called; when `L` is `Air` no entity is
removed; otherwise the world is unchanged and nothing is written or paid. -/
theorem landUse_occupancy (E : Env) (inp : Input) (w : World)
    (hab : notAborted E inp w)
    (hpre : preCheckPasses E inp w)
    (hb : w.selection.BuildType ≠ Terrain.Bulldoze)
    (hpay : w.stock.CanPay (selProps E w).BuildCost = true)
    (hcap : overCap w.stock (selProps E w) = false)
    (ht : (selProps E w).TerrainBits.Contains TerrainBit.IsTerrain = false)
    (hon : (selProps E w).BuildOn.Contains (terrainHere E inp w) = true) :
    ((Update E inp w).placed = true ↔ landUseLegal E inp w) ∧
    (landUseLegal E inp w → landUseHere E inp w ≠ Terrain.Air →
      (Update E inp w).trace =
        [Event.CanPay (selProps E w).BuildCost true,
         Event.LandUseSet (cursorTile E inp).X (cursorTile E inp).Y Terrain.Air,
         Event.RemoveEntity (landUseEntityHere E inp w),
         Event.LandUseEntitiesSet (cursorTile E inp).X (cursorTile E inp).Y Entity.zero,
         Event.FactorySet (cursorTile E inp).X (cursorTile E inp).Y w.selection.BuildType
           w.selection.RandSprite,
         Event.Pay (selProps E w).BuildCost, Event.ReplaceButton] ∧
      (Update E inp w).world.entities =
        w.entities.filter (fun p => p.1 ≠ landUseEntityHere E inp w) ++
          [(⟨w.created + 1⟩, E.components (cursorTile E inp).X (cursorTile E inp).Y
            w.selection.BuildType w.selection.RandSprite)]) ∧
    (landUseHere E inp w = Terrain.Air →
      (Update E inp w).trace =
        [Event.CanPay (selProps E w).BuildCost true,
         Event.FactorySet (cursorTile E inp).X (cursorTile E inp).Y w.selection.BuildType
           w.selection.RandSprite,
         Event.Pay (selProps E w).BuildCost, Event.ReplaceButton] ∧
      (Update E inp w).world.entities =
        w.entities ++ [(⟨w.created + 1⟩, E.components (cursorTile E inp).X (cursorTile E inp).Y
          w.selection.BuildType w.selection.RandSprite)]) ∧
    (¬ landUseLegal E inp w →
      (Update E inp w).world = w ∧
      (∀ ev ∈ (Update E inp w).trace, ev.isLayerWrite = false ∧ ev.isPay = false)) := by
  have hfree : landUseHere E inp w = Terrain.Air →
      Update E inp w = (((Run.FactorySet E ⟨w, [Event.CanPay (selProps E w).BuildCost true]⟩
        (cursorTile E inp).X (cursorTile E inp).Y w.selection.BuildType
        w.selection.RandSprite).Pay (selProps E w).BuildCost).ReplaceButton) :=
    fun hair => Update_landUse_free E inp w hab hpre hb hpay hcap ht hon hair
  have hrep : landUseLegal E inp w → landUseHere E inp w ≠ Terrain.Air →
      Update E inp w = (((Run.FactorySet E
        ((((⟨w, [Event.CanPay (selProps E w).BuildCost true]⟩ : Run).LandUseSet
          (cursorTile E inp).X (cursorTile E inp).Y Terrain.Air).RemoveEntity
          (landUseEntityHere E inp w)).LandUseEntitiesSet
          (cursorTile E inp).X (cursorTile E inp).Y Entity.zero)
        (cursorTile E inp).X (cursorTile E inp).Y w.selection.BuildType
        w.selection.RandSprite).Pay (selProps E w).BuildCost).ReplaceButton) := by
    intro hl hair
    rcases hl with h | ⟨hnat, hbuy⟩
    · exact absurd h hair
    · exact Update_landUse_replace E inp w hab hpre hb hpay hcap ht hon hair hnat hbuy
  have hocc : ¬ landUseLegal E inp w →
      Update E inp w = ⟨w, [Event.CanPay (selProps E w).BuildCost true]⟩ :=
    fun hl => Update_landUse_occupied E inp w hab hpre hb hpay hcap ht hl
  simp only [selProps] at ht
  refine ⟨?_, ?_, ?_, ?_⟩
  · by_cases hl : landUseLegal E inp w
    · by_cases hair : landUseHere E inp w = Terrain.Air
      · rw [hfree hair]
        simp [hl, Run.placed, Run.FactorySet, Run.Pay, Run.ReplaceButton, Event.isFactorySet]
      · rw [hrep hl hair]
        simp [hl, Run.placed, Run.FactorySet, Run.Pay, Run.ReplaceButton, Event.isFactorySet]
    · rw [hocc hl]
      simp [hl, Run.placed, Event.isFactorySet]
  · intro hl hair
    rw [hrep hl hair]
    simp [Run.FactorySet, Run.Pay, Run.ReplaceButton, Run.LandUseSet, Run.RemoveEntity,
      Run.LandUseEntitiesSet, ht]
  · intro hair
    rw [hfree hair]
    simp [Run.FactorySet, Run.Pay, Run.ReplaceButton, ht]
  · intro hl
    rw [hocc hl]
    simp [Event.isLayerWrite, Event.isPay]

/-- Witness of C8, amended: a house replaces the tree on the tile (3,4). -/
theorem landUse_occupancy_witness :
    notAborted demoEnv (clickAt 3 4) treeWorld ∧
    preCheckPasses demoEnv (clickAt 3 4) treeWorld ∧
    landUseHere demoEnv (clickAt 3 4) treeWorld = Tree ∧
    (Update demoEnv (clickAt 3 4) treeWorld).placed = true ∧
    (Update demoEnv (clickAt 3 4) treeWorld).trace =
      [Event.CanPay [⟨0, 5⟩] true, Event.LandUseSet 3 4 Terrain.Air,
       Event.RemoveEntity ⟨5⟩, Event.LandUseEntitiesSet 3 4 Entity.zero,
       Event.FactorySet 3 4 House false, Event.Pay [⟨0, 5⟩], Event.ReplaceButton] :=
  have h := landUse_occupancy demoEnv (clickAt 3 4) treeWorld
    (by decide) (by decide) (by decide) (by decide) (by decide) (by decide) (by decide)
  ⟨by decide, by decide, by decide, h.1.2 (by decide), (h.2.1 (by decide) (by decide)).1⟩

/-- C9 as stated fails: the tick is not skipped, the quay (a terrain type) is
affordable and within the cap, and grass at the tile (9,9) is in its `BuildOn`,
yet the factory is not called: the table entry of the quay carries `CanBuy` and
the tile is outside every build radius, so the pre-check returns first. -/
theorem terrain_placement_counterexample :
    notAborted demoEnv (clickAt 9 9) quayWorld ∧
    quayWorld.selection.BuildType ≠ Terrain.Bulldoze ∧
    quayWorld.stock.CanPay (selProps demoEnv quayWorld).BuildCost = true ∧
    overCap quayWorld.stock (selProps demoEnv quayWorld) = false ∧
    (selProps demoEnv quayWorld).TerrainBits.Contains TerrainBit.IsTerrain = true ∧
    (selProps demoEnv quayWorld).BuildOn.Contains
      (terrainHere demoEnv (clickAt 9 9) quayWorld) = true ∧
    (Update demoEnv (clickAt 9 9) quayWorld).placed = false ∧
    (Update demoEnv (clickAt 9 9) quayWorld).trace = [] := by
  decide

/-- C9, amended: terrain placement legality. In a tick that is not skipped and
passes the build-radius pre-check, affordable and within the cap, with a
terrain type `T` other than Bulldoze, the factory is called, and `BuildCost`
charged, if and only if the terrain `H` at the tile is in `T.BuildOn`, or
`AllowRemove` is set and `H` is neither `Air` nor `T`; otherwise the world is
unchanged and nothing is written or paid. The land-use layer plays no part:
replacing `LandUse` and `LandUseEntities` by any other grids does not change
whether the factory is called. -/
theorem terrain_placement (E : Env) (inp : Input) (w : World)
    (hab : notAborted E inp w)
    (hpre : preCheckPasses E inp w)
    (hb : w.selection.BuildType ≠ Terrain.Bulldoze)
    (hpay : w.stock.CanPay (selProps E w).BuildCost = true)
    (hcap : overCap w.stock (selProps E w) = false)
    (ht : (selProps E w).TerrainBits.Contains TerrainBit.IsTerrain = true) :
    ((Update E inp w).placed = true ↔ terrainLegal E inp w) ∧
    (terrainLegal E inp w →
      (Update E inp w).trace =
        [Event.CanPay (selProps E w).BuildCost true,
         Event.FactorySet (cursorTile E inp).X (cursorTile E inp).Y w.selection.BuildType
           w.selection.RandSprite,
         Event.Pay (selProps E w).BuildCost, Event.ReplaceButton] ∧
      (Update E inp w).world.stock = w.stock.Pay (selProps E w).BuildCost) ∧
    (¬ terrainLegal E inp w →
      (Update E inp w).world = w ∧
      (∀ ev ∈ (Update E inp w).trace, ev.isLayerWrite = false ∧ ev.isPay = false)) ∧
    (∀ (lu : Grid Terrain) (lue : Grid Entity),
      (Update E inp { w with landUse := lu, landUseEntities := lue }).placed =
        (Update E inp w).placed) := by
  refine ⟨Update_terrain_placed_iff E inp w hab hpre hb hpay hcap ht, ?_, ?_, ?_⟩
  · intro hl
    rw [Update_terrain_place E inp w hab hpre hb hpay hcap ht hl]
    simp only [selProps] at ht
    simp [Run.FactorySet, Run.Pay, Run.ReplaceButton, ht]
  · intro hl
    rw [Update_terrain_illegal E inp w hab hpre hb hpay hcap ht hl]
    simp [Event.isLayerWrite, Event.isPay]
  · intro lu lue
    have hab2 : notAborted E inp { w with landUse := lu, landUseEntities := lue } := by
      have hc := checkAbort_fst_congr E inp
        ⟨{ w with landUse := lu, landUseEntities := lue }, []⟩ ⟨w, []⟩ rfl
      simp only [notAborted] at hab ⊢
      rw [hc]
      exact hab
    have h1 := Update_terrain_placed_iff E inp { w with landUse := lu, landUseEntities := lue }
      hab2 hpre hb hpay hcap ht
    have h2 := Update_terrain_placed_iff E inp w hab hpre hb hpay hcap ht
    have h3 : terrainLegal E inp { w with landUse := lu, landUseEntities := lue } ↔
        terrainLegal E inp w := Iff.rfl
    rw [Bool.eq_iff_iff, h1, h2, h3]

/-- Witness of C9, amended: water is placed on the grass of the tile (3,4). -/
theorem terrain_placement_witness :
    notAborted demoEnv (clickAt 3 4) waterWorld ∧
    preCheckPasses demoEnv (clickAt 3 4) waterWorld ∧
    (selProps demoEnv waterWorld).TerrainBits.Contains TerrainBit.IsTerrain = true ∧
    terrainHere demoEnv (clickAt 3 4) waterWorld = GrassTerrain ∧
    (Update demoEnv (clickAt 3 4) waterWorld).placed = true ∧
    (Update demoEnv (clickAt 3 4) waterWorld).world.terrain.Get 3 4 = Water :=
  have h := terrain_placement demoEnv (clickAt 3 4) waterWorld
    (by decide) (by decide) (by decide) (by decide) (by decide) (by decide)
  ⟨by decide, by decide, by decide, by decide, h.1.2 (by decide), by decide⟩

/-- C10, evaluated where the code breaks it: water is placed on the tile (3,4)
whose terrain is grass, not `Air`, with the live entity 1 in `TerrainEntities`.
The factory's `Set` is called with no `RemoveEntity` before it; afterwards the
cell refers to the new entity 6 and entity 1 is still live. -/
theorem terrain_place_keeps_old_entity :
    notAborted demoEnv (clickAt 3 4) waterWorld ∧
    (selProps demoEnv waterWorld).TerrainBits.Contains TerrainBit.IsTerrain = true ∧
    waterWorld.terrain.Get 3 4 = GrassTerrain ∧
    waterWorld.terrain.Get 3 4 ≠ Terrain.Air ∧
    waterWorld.terrainEntities.Get 3 4 = ⟨1⟩ ∧
    waterWorld.isLive ⟨1⟩ = true ∧
    (Update demoEnv (clickAt 3 4) waterWorld).trace =
      [Event.CanPay [] true, Event.FactorySet 3 4 Water false, Event.Pay [],
       Event.ReplaceButton] ∧
    (Update demoEnv (clickAt 3 4) waterWorld).trace.any Event.isRemoveEntity = false ∧
    (Update demoEnv (clickAt 3 4) waterWorld).world.terrain.Get 3 4 = Water ∧
    (Update demoEnv (clickAt 3 4) waterWorld).world.terrainEntities.Get 3 4 = ⟨6⟩ ∧
    (Update demoEnv (clickAt 3 4) waterWorld).world.isLive ⟨1⟩ = true := by
  decide


/-! ### Facts for the invariants and the frame -/

theorem Update_aborted_frame (E : Env) (inp : Input) (w : World)
    (hab : (checkAbort E inp ⟨w, []⟩).1 = true) :
    World.sameState w (Update E inp w).world ∧
    (Update E inp w).world.landUse = w.landUse ∧
    ((Update E inp w).trace = [] ∨ (Update E inp w).trace = [Event.SelectionReset]) := by
  rw [Update_aborted E inp w (by simp [notAborted, hab])]
  rcases checkAbort_cases E inp ⟨w, []⟩ with h0 | h0
  all_goals rw [h0]
  all_goals simp [World.sameState, Run.Reset]

theorem checkAbort_false_placeable (E : Env) (inp : Input) (r : Run)
    (h : (checkAbort E inp r).1 = false) :
    r.world.selection.BuildType = Terrain.Bulldoze ∨
      (E.Properties r.world.selection.BuildType).TerrainBits.Contains TerrainBit.CanBuild
        = true := by
  unfold checkAbort at h
  simp only [] at h
  split_ifs at h
  all_goals first
    | (simp_all; done)
    | (simp_all; tauto)

theorem filter_ne_length (es : List (Entity × Components)) (e : Entity)
    (hnd : (es.map Prod.fst).Nodup) :
    es.length ≤ (es.filter (fun p => !decide (p.1 = e))).length + 1 := by
  induction es with
  | nil => simp
  | cons a t ih =>
    simp only [List.map_cons, List.nodup_cons] at hnd
    by_cases ha : a.1 = e
    · have hall : t.filter (fun p => !decide (p.1 = e)) = t := by
        apply List.filter_eq_self.mpr
        intro p hp
        have hpe : p.1 ≠ e := by
          intro hpe
          apply hnd.1
          rw [ha, ← hpe]
          exact List.mem_map_of_mem Prod.fst hp
        simp [hpe]
      simp [List.filter_cons, ha, hall]
    · have := ih hnd.2
      simp only [List.filter_cons, ha, decide_False, Bool.not_false, if_true, List.length_cons]
      omega

/-! ### The sprite table -/

theorem loadSprite_numbered (w h cols : Int) (sheetNo : Nat) (st st' : Loader) (i : Nat)
    (inf : SpriteInfo) (ns : List String)
    (hload : loadSprite w h cols sheetNo st i inf = Except.ok st')
    (hnum : st.numbered ns) :
    st'.numbered (ns ++ [inf.Name]) ∧ st'.atlas = st.atlas := by
  unfold loadSprite at hload
  split_ifs at hload with hdup hcols
  simp only [Except.ok.injEq] at hload
  subst hload
  obtain ⟨hidx, hsp, hinf, hmap⟩ := hnum
  have hfresh : st.indices inf.Name = none := by
    cases hq : st.indices inf.Name with
    | none => rfl
    | some j => simp [hq] at hdup
  have hnot : ∀ j : Nat, ns[j]? ≠ some inf.Name := by
    intro j hj
    have := (hmap inf.Name j).mpr hj
    rw [hfresh] at this
    exact absurd this (by simp)
  refine ⟨⟨?_, ?_, ?_, ?_⟩, rfl⟩
  · simp [hidx]
  · simp [hsp]
  · simp [hinf]
  · intro a j
    simp only []
    by_cases ha : a = inf.Name
    · subst ha
      simp only [if_true, Option.some.injEq]
      constructor
      · intro hj
        subst hj
        rw [hidx]
        simp
      · intro hj
        by_cases hlt : j < ns.length
        · rw [List.getElem?_append_left hlt] at hj
          exact absurd hj (hnot j)
        · have hge : ns.length ≤ j := Nat.le_of_not_lt hlt
          rw [List.getElem?_append_right hge] at hj
          have hz : j - ns.length = 0 := by
            by_contra hne
            rw [List.getElem?_eq_none (by simp; omega)] at hj
            exact absurd hj (by simp)
          omega
    · simp only [if_neg ha]
      rw [hmap a j]
      by_cases hlt : j < ns.length
      · rw [List.getElem?_append_left hlt]
      · have hge : ns.length ≤ j := Nat.le_of_not_lt hlt
        rw [List.getElem?_eq_none hge, List.getElem?_append_right hge]
        constructor
        · intro hj
          exact absurd hj (by simp)
        · intro hj
          by_cases hz : j - ns.length = 0
          · rw [hz] at hj
            simp only [List.getElem?_cons_zero, Option.some.injEq] at hj
            exact absurd hj.symm ha
          · rw [List.getElem?_eq_none (by simp; omega)] at hj
            exact absurd hj (by simp)

theorem loadSprites_numbered (w h cols : Int) (sheetNo : Nat) (infos : List SpriteInfo) :
    ∀ (st st' : Loader) (i : Nat) (ns : List String),
      loadSprites w h cols sheetNo st i infos = Except.ok st' →
      st.numbered ns →
      st'.numbered (ns ++ infos.map (fun inf => inf.Name)) := by
  induction infos with
  | nil =>
    intro st st' i ns hload hnum
    simp only [loadSprites, Except.ok.injEq] at hload
    subst hload
    simpa using hnum
  | cons inf rest ih =>
    intro st st' i ns hload hnum
    simp only [loadSprites] at hload
    cases hone : loadSprite w h cols sheetNo st i inf with
    | error e => simp [hone] at hload
    | ok st1 =>
      simp only [hone] at hload
      have h1 := (loadSprite_numbered w h cols sheetNo st st1 i inf ns hone hnum).1
      have h2 := ih st1 st' (i + 1) (ns ++ [inf.Name]) hload h1
      simpa using h2

theorem loadSheet_numbered (st st' : Loader) (sheet : SpriteSheet) (ns : List String)
    (hload : loadSheet st sheet = Except.ok st') (hnum : st.numbered ns) :
    st'.numbered (ns ++ sheet.Sprites.map (fun inf => inf.Name)) := by
  unfold loadSheet at hload
  simp only [] at hload
  split_ifs at hload
  exact loadSprites_numbered _ _ _ _ sheet.Sprites _ st' 0 ns hload hnum

theorem loadSheets_numbered (sheets : List SpriteSheet) :
    ∀ (st st' : Loader) (ns : List String),
      loadSheets st sheets = Except.ok st' →
      st.numbered ns →
      st'.numbered (ns ++ spriteNames sheets) := by
  induction sheets with
  | nil =>
    intro st st' ns hload hnum
    simp only [loadSheets, Except.ok.injEq] at hload
    subst hload
    simpa [spriteNames] using hnum
  | cons sheet rest ih =>
    intro st st' ns hload hnum
    simp only [loadSheets] at hload
    cases hone : loadSheet st sheet with
    | error e => simp [hone] at hload
    | ok st1 =>
      simp only [hone] at hload
      have h1 := loadSheet_numbered st st1 sheet ns hone hnum
      have h2 := ih st1 st' _ hload h1
      simpa [spriteNames] using h2

theorem NewSprites_numbered (sheets : List SpriteSheet) (s : Sprites)
    (hnew : NewSprites sheets = Except.ok s) :
    s.sprites.length = (spriteNames sheets).length ∧
    s.infos.length = (spriteNames sheets).length ∧
    (∀ (a : String) (i : Nat), s.indices a = some i ↔ (spriteNames sheets)[i]? = some a) ∧
    s.idxUnknown = (s.indices nameUnknown).getD 0 := by
  unfold NewSprites at hnew
  cases hl : loadSheets ⟨[], [], [], fun _ => none, 0⟩ sheets with
  | error e => simp [hl] at hnew
  | ok st =>
    simp only [hl, Except.ok.injEq] at hnew
    subst hnew
    have h0 : Loader.numbered ⟨[], [], [], fun _ => none, 0⟩ [] := by
      simp [Loader.numbered]
    have h := loadSheets_numbered sheets _ st [] hl h0
    simp only [List.nil_append] at h
    exact ⟨h.2.1, h.2.2.1, h.2.2.2, rfl⟩

theorem tdiv_two_toward_zero (a : Int) : isHalfTowardZero a (Int.tdiv a 2) := by
  unfold isHalfTowardZero
  constructor
  · intro ha
    rw [Int.tdiv_eq_ediv ha (by decide)]
    omega
  · intro ha
    have hneg : Int.tdiv a 2 = -((-a) / 2) := by
      have h1 : Int.tdiv (-a) 2 = (-a) / 2 := Int.tdiv_eq_ediv (by omega) (by decide)
      rw [← h1, Int.neg_tdiv, neg_neg]
    rw [hneg]
    omega

theorem wrapInt_of_fits (z : Int) (h : fitsInt z) : wrapInt z = z := by
  obtain ⟨h1, h2⟩ := h
  unfold wrapInt
  omega

theorem TileToScreen_exact (v : View) (x y : Int)
    (hd : fitsInt (x - y)) (hp : fitsInt ((x - y) * v.TileWidth))
    (hs : fitsInt (x + y)) (hq : fitsInt ((x + y) * v.TileHeight)) :
    v.TileToScreen x y =
      ⟨Int.tdiv ((x - y) * v.TileWidth) 2, Int.tdiv ((x + y) * v.TileHeight) 2⟩ := by
  have h1 : subInt x y = x - y := wrapInt_of_fits _ hd
  have h2 : addInt x y = x + y := wrapInt_of_fits _ hs
  have h3 : mulInt (x - y) v.TileWidth = (x - y) * v.TileWidth := wrapInt_of_fits _ hp
  have h4 : mulInt (x + y) v.TileHeight = (x + y) * v.TileHeight := wrapInt_of_fits _ hq
  simp only [View.TileToScreen, h1, h2, h3, h4]

/-! ## Invariants, abort and frame of `Build.Update` -/

/-- C11 as stated fails: with a table whose entry for `Air` carries `CanBuild`
and `Air` selected, every tile is consistent before the tick, a left click on
the free grass tile (3,4) makes the factory place `Air` there, and afterwards
`LandUse` at (3,4) is `Air` while `LandUseEntities` holds the new entity 6. -/
theorem layer_entity_consistency_counterexample :
    (∀ x y : Int, airWorld.landUse.Get x y = Terrain.Air ↔
      airWorld.landUseEntities.Get x y = Entity.zero) ∧
    (Update airEnv (clickAt 3 4) airWorld).trace =
      [Event.CanPay [] true, Event.FactorySet 3 4 Terrain.Air false, Event.Pay [],
       Event.ReplaceButton] ∧
    (Update airEnv (clickAt 3 4) airWorld).world.landUse.Get 3 4 = Terrain.Air ∧
    (Update airEnv (clickAt 3 4) airWorld).world.landUseEntities.Get 3 4 = ⟨6⟩ ∧
    ¬ ((Update airEnv (clickAt 3 4) airWorld).world.landUse.Get 3 4 = Terrain.Air ↔
      (Update airEnv (clickAt 3 4) airWorld).world.landUseEntities.Get 3 4 = Entity.zero) := by
  refine ⟨?_, by decide, by decide, by decide, by decide⟩
  intro x y
  simp only [airWorld, demoWorld, Grid.Get, Entity.zero, Warehouse]
  split_ifs <;> simp

/-- C11, amended: layer/entity consistency is an invariant of the Build step
when the table entry of `Air` lacks `CanBuild`. If before `Update` every tile
has `LandUse = Air` exactly when its `LandUseEntities` cell is the zero handle,
the same holds for every tile afterwards, for every selection and input (the
factory as specified: it registers a new entity and sets the layer of the
type). -/
theorem layer_entity_consistency (E : Env) (inp : Input) (w : World)
    (hair : (E.Properties Terrain.Air).TerrainBits.Contains TerrainBit.CanBuild = false)
    (hinv : ∀ x y : Int, w.landUse.Get x y = Terrain.Air ↔
      w.landUseEntities.Get x y = Entity.zero) :
    ∀ x y : Int, (Update E inp w).world.landUse.Get x y = Terrain.Air ↔
      (Update E inp w).world.landUseEntities.Get x y = Entity.zero := by
  generalize hr : Update E inp w = r
  unfold Update at hr
  simp only [] at hr
  by_cases hab : (checkAbort E inp ⟨w, []⟩).1 = true
  · rw [if_pos hab] at hr
    rcases checkAbort_cases E inp ⟨w, []⟩ with h0 | h0
    all_goals rw [h0] at hr
    all_goals subst hr
    all_goals simpa [Run.Reset] using hinv
  · have hsel := checkAbort_false_placeable E inp ⟨w, []⟩ (by simpa using hab)
    have hne : ¬ (w.selection.BuildType == Terrain.Bulldoze) = true →
        w.selection.BuildType ≠ Terrain.Air := by
      intro hb ha
      rcases hsel with h | h
      · exact hb (beq_iff_eq.mpr h)
      · simp only [] at h
        rw [ha, hair] at h
        exact absurd h (by decide)
    rw [if_neg hab, checkAbort_false E inp ⟨w, []⟩ (by simpa using hab)] at hr
    simp only [] at hr
    split_ifs at hr
    all_goals subst hr
    all_goals intro x y
    all_goals have hxy := hinv x y
    all_goals simp only [Run.CanPay, Run.Pay, Run.ReplaceButton, Run.FactorySet, Run.LandUseSet,
      Run.RemoveEntity, Run.LandUseEntitiesSet, Grid.Get, Grid.Set] at hxy ⊢
    all_goals try split_ifs
    all_goals try simp only []
    all_goals by_cases hc : x = (cursorTile E inp).X ∧ y = (cursorTile E inp).Y
    all_goals first
      | simp only [if_pos hc]
      | simp only [if_neg hc]
      | skip
    all_goals first
      | exact hxy
      | (have hT := hne (by assumption)
         simp_all [Entity.zero])

/-- Witness of C11, amended: a house is built on the tile (3,4) of a consistent
world; the tile is consistent afterwards. -/
theorem layer_entity_consistency_witness :
    (demoEnv.Properties Terrain.Air).TerrainBits.Contains TerrainBit.CanBuild = false ∧
    (∀ x y : Int, houseWorld.landUse.Get x y = Terrain.Air ↔
      houseWorld.landUseEntities.Get x y = Entity.zero) ∧
    ((Update demoEnv (clickAt 3 4) houseWorld).world.landUse.Get 3 4 = Terrain.Air ↔
      (Update demoEnv (clickAt 3 4) houseWorld).world.landUseEntities.Get 3 4 = Entity.zero) :=
  have hinv : ∀ x y : Int, houseWorld.landUse.Get x y = Terrain.Air ↔
      houseWorld.landUseEntities.Get x y = Entity.zero := by
    intro x y
    simp only [houseWorld, demoWorld, Grid.Get, Entity.zero, Warehouse]
    split_ifs <;> simp
  ⟨by decide, hinv, layer_entity_consistency demoEnv (clickAt 3 4) houseWorld (by decide) hinv 3 4⟩

/-- C12: abort decision. `checkAbort` returns false exactly when Escape was not
just pressed, the pointer is not inside the UI, the right button was not just
pressed, the left button was just pressed, and the selected type is Bulldoze or
its table entry has `CanBuild`. Whenever it returns true, `Update` leaves
layers, entity grids, live entities and stock unchanged and makes no layer
write, no factory call and no payment. -/
theorem checkAbort_decision (E : Env) (inp : Input) (w : World) :
    ((checkAbort E inp ⟨w, []⟩).1 = false ↔
      (inp.KeyEscapeJustPressed = false ∧
       E.MouseInside inp.CursorPosition.1 inp.CursorPosition.2 = false ∧
       inp.MouseButton2JustPressed = false ∧
       inp.MouseButton0JustPressed = true ∧
       (w.selection.BuildType = Terrain.Bulldoze ∨
         (selProps E w).TerrainBits.Contains TerrainBit.CanBuild = true))) ∧
    ((checkAbort E inp ⟨w, []⟩).1 = true →
      World.sameState w (Update E inp w).world ∧
      (Update E inp w).placed = false ∧
      (∀ ev ∈ (Update E inp w).trace, ev.isLayerWrite = false ∧ ev.isPay = false)) := by
  constructor
  · unfold checkAbort
    simp only [selProps]
    split_ifs
    all_goals first
      | (simp_all; done)
      | (simp_all; tauto)
  · intro hab
    obtain ⟨h1, -, h3⟩ := Update_aborted_frame E inp w hab
    refine ⟨h1, ?_, ?_⟩
    · rcases h3 with h | h <;> simp [Run.placed, h, Event.isFactorySet]
    · rcases h3 with h | h <;> simp [h, Event.isLayerWrite, Event.isPay]

/-- Witness of C12: a tick without a left click is skipped and changes nothing. -/
theorem checkAbort_decision_witness :
    (checkAbort demoEnv ⟨(3, 4), false, false, false⟩ ⟨houseWorld, []⟩).1 = true ∧
    World.sameState houseWorld (Update demoEnv ⟨(3, 4), false, false, false⟩ houseWorld).world ∧
    (Update demoEnv ⟨(3, 4), false, false, false⟩ houseWorld).placed = false :=
  have h := (checkAbort_decision demoEnv ⟨(3, 4), false, false, false⟩ houseWorld).2 (by decide)
  ⟨by decide, h.1, h.2.1⟩

/-- C13: selection reset on cancel. `checkAbort` calls `Selection.Reset` exactly
once when Escape was just pressed, or when Escape was not pressed, the pointer
is not over the UI and the right button was just pressed; in every other case
it does not call it and leaves the selection as it was. With Escape pressed
the tick is skipped and `Update` places nothing, also when the left button was
just pressed. -/
theorem checkAbort_reset (E : Env) (inp : Input) (w : World) :
    ((inp.KeyEscapeJustPressed = true ∨
        (inp.KeyEscapeJustPressed = false ∧
         E.MouseInside inp.CursorPosition.1 inp.CursorPosition.2 = false ∧
         inp.MouseButton2JustPressed = true)) →
      (checkAbort E inp ⟨w, []⟩).1 = true ∧
      (checkAbort E inp ⟨w, []⟩).2.trace = [Event.SelectionReset] ∧
      (checkAbort E inp ⟨w, []⟩).2.world.selection = E.Reset w.selection) ∧
    (¬ (inp.KeyEscapeJustPressed = true ∨
        (inp.KeyEscapeJustPressed = false ∧
         E.MouseInside inp.CursorPosition.1 inp.CursorPosition.2 = false ∧
         inp.MouseButton2JustPressed = true)) →
      (checkAbort E inp ⟨w, []⟩).2.trace = [] ∧
      (checkAbort E inp ⟨w, []⟩).2.world.selection = w.selection) ∧
    (inp.KeyEscapeJustPressed = true →
      (Update E inp w).trace = [Event.SelectionReset] ∧
      (Update E inp w).placed = false ∧
      World.sameState w (Update E inp w).world) := by
  refine ⟨?_, ?_, ?_⟩
  · intro h
    unfold checkAbort
    simp only []
    split_ifs <;> simp_all [Run.Reset]
  · intro h
    unfold checkAbort
    simp only []
    split_ifs <;> simp_all [Run.Reset]
  · intro hesc
    have hab : (checkAbort E inp ⟨w, []⟩).1 = true := by
      unfold checkAbort
      simp [hesc]
    have h2 : (checkAbort E inp ⟨w, []⟩).2 = (⟨w, []⟩ : Run).Reset E := by
      unfold checkAbort
      simp [hesc]
    rw [Update_aborted E inp w (by simp [notAborted, hab]), h2]
    simp [Run.Reset, Run.placed, Event.isFactorySet, World.sameState]

/-- Witness of C13: Escape together with a left click on the free grass tile
(3,4), House selected: the selection is reset and nothing is placed. -/
theorem checkAbort_reset_witness :
    (escapeClickAt 3 4).KeyEscapeJustPressed = true ∧
    (escapeClickAt 3 4).MouseButton0JustPressed = true ∧
    (Update demoEnv (escapeClickAt 3 4) houseWorld).trace = [Event.SelectionReset] ∧
    (Update demoEnv (escapeClickAt 3 4) houseWorld).placed = false :=
  have h := (checkAbort_reset demoEnv (escapeClickAt 3 4) houseWorld).2.2 (by decide)
  ⟨by decide, by decide, h.1, h.2.1⟩

/-- C14: at most one tile changes per tick. For every run of `Update`, every
tile other than the cursor tile has the same `LandUse` and `LandUseEntities`
value afterwards, and the tick makes at most one `RemoveEntity` call, at most
one factory `Set` and at most one `Pay`; when the live entities have distinct
handles, at most one of them is gone afterwards. -/
theorem Update_one_tile (E : Env) (inp : Input) (w : World) :
    (∀ x y : Int, ¬ (x = (cursorTile E inp).X ∧ y = (cursorTile E inp).Y) →
      (Update E inp w).world.landUse.Get x y = w.landUse.Get x y ∧
      (Update E inp w).world.landUseEntities.Get x y = w.landUseEntities.Get x y) ∧
    (Update E inp w).trace.countP Event.isRemoveEntity ≤ 1 ∧
    (Update E inp w).trace.countP Event.isFactorySet ≤ 1 ∧
    (Update E inp w).trace.countP Event.isPay ≤ 1 ∧
    ((w.entities.map Prod.fst).Nodup →
      w.entities.length ≤ (Update E inp w).world.entities.length + 1) := by
  generalize hr : Update E inp w = r
  unfold Update at hr
  simp only [] at hr
  by_cases hab : (checkAbort E inp ⟨w, []⟩).1 = true
  · rw [if_pos hab] at hr
    rcases checkAbort_cases E inp ⟨w, []⟩ with h0 | h0
    all_goals rw [h0] at hr
    all_goals subst hr
    all_goals simp [Run.Reset, List.countP_cons, Event.isRemoveEntity, Event.isFactorySet,
      Event.isPay]
  · rw [if_neg hab, checkAbort_false E inp ⟨w, []⟩ (by simpa using hab)] at hr
    simp only [] at hr
    split_ifs at hr
    all_goals subst hr
    all_goals refine ⟨?_, ?_, ?_, ?_, ?_⟩
    all_goals try (simp [Run.CanPay, Run.Pay, Run.ReplaceButton, Run.FactorySet, Run.LandUseSet,
        Run.RemoveEntity, Run.LandUseEntitiesSet, List.countP_cons, Event.isRemoveEntity,
        Event.isFactorySet, Event.isPay]; done)
    all_goals first
      | (intro hnd
         have hlen := filter_ne_length w.entities
           (w.landUseEntities.Get (cursorTile E inp).X (cursorTile E inp).Y) hnd
         simp only [Run.CanPay, Run.Pay, Run.ReplaceButton, Run.FactorySet, Run.LandUseSet,
           Run.RemoveEntity, Run.LandUseEntitiesSet]
         try split_ifs
         all_goals simp
         all_goals omega)
      | (intro x y hxy
         simp only [Run.CanPay, Run.Pay, Run.ReplaceButton, Run.FactorySet, Run.LandUseSet,
           Run.RemoveEntity, Run.LandUseEntitiesSet, Grid.Get, Grid.Set]
         try split_ifs
         all_goals simp_all)

/-- Witness of C14: building a house on the tile (3,4) leaves the warehouse
tile (5,5) as it was, and no live entity is gone. -/
theorem Update_one_tile_witness :
    ¬ ((5 : Int) = (cursorTile demoEnv (clickAt 3 4)).X ∧
      (5 : Int) = (cursorTile demoEnv (clickAt 3 4)).Y) ∧
    (houseWorld.entities.map Prod.fst).Nodup ∧
    (Update demoEnv (clickAt 3 4) houseWorld).world.landUse.Get 5 5 = Warehouse ∧
    (Update demoEnv (clickAt 3 4) houseWorld).world.landUseEntities.Get 5 5 = ⟨4⟩ ∧
    houseWorld.entities.length ≤ (Update demoEnv (clickAt 3 4) houseWorld).world.entities.length + 1 :=
  have h := Update_one_tile demoEnv (clickAt 3 4) houseWorld
  ⟨by decide, by decide, (h.1 5 5 (by decide)).1, (h.1 5 5 (by decide)).2,
    h.2.2.2.2 (by decide)⟩

/-! ## Properties of the view and the sprite table -/

/-- C15 as stated fails: in the view with `TileWidth = 2` the tile
(2^61, -2^61) is made of `int` values, `(x - y) * TileWidth` is 2^63 and wraps to
-2^63, so the screen x is -2^62 and not the half 2^62 of the exact product. -/
theorem TileToScreen_formula_counterexample :
    fitsInt 2305843009213693952 ∧ fitsInt (-2305843009213693952) ∧ fitsInt 2 ∧
    (2305843009213693952 - (-2305843009213693952)) * 2 = (9223372036854775808 : Int) ∧
    View.TileToScreen ⟨2, 2, 0, 0, 1.0⟩ 2305843009213693952 (-2305843009213693952) =
      ⟨-4611686018427387904, 0⟩ ∧
    Int.tdiv ((2305843009213693952 - (-2305843009213693952)) * 2) 2 =
      (4611686018427387904 : Int) ∧
    View.TileToScreen ⟨2, 2, 0, 0, 1.0⟩ 2305843009213693952 (-2305843009213693952) ≠
      ⟨Int.tdiv ((2305843009213693952 - (-2305843009213693952)) * 2) 2,
        Int.tdiv ((2305843009213693952 + (-2305843009213693952)) * 2) 2⟩ := by
  decide

/-- C15, amended: `TileToScreen` is the diamond projection with truncating
division where the arithmetic does not overflow. For every view and all
integers `x`, `y` such that `x - y`, `x + y` and the two products
`(x - y) * TileWidth`, `(x + y) * TileHeight` lie in the range of `int`, the
result is `(((x - y) * TileWidth) quot 2, ((x + y) * TileHeight) quot 2)`, each
component being half of the product rounded toward zero. For all `x`, `y` it
depends on the view only through `TileWidth` and `TileHeight`; with
`TileWidth = 3` the tile (0,1) has screen x -1 (flooring would give -2), and
the tile (0,2) has -3 (halving the width first would give -2). -/
theorem TileToScreen_formula (v : View) (x y : Int)
    (hd : fitsInt (x - y)) (hp : fitsInt ((x - y) * v.TileWidth))
    (hs : fitsInt (x + y)) (hq : fitsInt ((x + y) * v.TileHeight)) :
    v.TileToScreen x y =
      ⟨Int.tdiv ((x - y) * v.TileWidth) 2, Int.tdiv ((x + y) * v.TileHeight) 2⟩ ∧
    isHalfTowardZero ((x - y) * v.TileWidth) (v.TileToScreen x y).X ∧
    isHalfTowardZero ((x + y) * v.TileHeight) (v.TileToScreen x y).Y ∧
    (∀ (v' : View) (a b : Int), v'.TileWidth = v.TileWidth → v'.TileHeight = v.TileHeight →
      v'.TileToScreen a b = v.TileToScreen a b) ∧
    (∀ (h cx cy : Int) (z : Float),
      (View.TileToScreen ⟨3, h, cx, cy, z⟩ 0 1).X = -1 ∧
      (View.TileToScreen ⟨3, h, cx, cy, z⟩ 0 1).X ≠ ((0 - 1) * 3) / 2 ∧
      (View.TileToScreen ⟨3, h, cx, cy, z⟩ 0 2).X = -3 ∧
      (View.TileToScreen ⟨3, h, cx, cy, z⟩ 0 2).X ≠ (0 - 2) * Int.tdiv 3 2) := by
  have hex := TileToScreen_exact v x y hd hp hs hq
  refine ⟨hex, ?_, ?_, ?_, ?_⟩
  · rw [hex]
    exact tdiv_two_toward_zero _
  · rw [hex]
    exact tdiv_two_toward_zero _
  · intro v' a b hw hh
    simp [View.TileToScreen, hw, hh]
  · intro h cx cy z
    simp only [View.TileToScreen]
    decide

/-- Witness of C15, amended: the tile (5,2) of a view with tiles of 3 by 2 is
projected to (4, 7), whatever the position and zoom of the view. -/
theorem TileToScreen_formula_witness :
    fitsInt (5 - 2) ∧ fitsInt ((5 - 2) * 3) ∧ fitsInt (5 + 2) ∧ fitsInt ((5 + 2) * 2) ∧
    View.TileToScreen ⟨3, 2, 0, 0, 1.0⟩ 5 2 = ⟨Int.tdiv ((5 - 2) * 3) 2, Int.tdiv ((5 + 2) * 2) 2⟩ ∧
    View.TileToScreen ⟨3, 2, 100, -40, 2.5⟩ 5 2 = View.TileToScreen ⟨3, 2, 0, 0, 1.0⟩ 5 2 ∧
    View.TileToScreen ⟨3, 2, 0, 0, 1.0⟩ 5 2 = ⟨4, 7⟩ :=
  have h := TileToScreen_formula ⟨3, 2, 0, 0, 1.0⟩ 5 2
    (by decide) (by decide) (by decide) (by decide)
  ⟨by decide, by decide, by decide, by decide, h.1,
    h.2.2.2.1 ⟨3, 2, 100, -40, 2.5⟩ 5 2 rfl rfl, by decide⟩

/-- C18 as stated fails: the sheet registers "grass" and "tree" and no sprite
named "unknown"; for the name "nope", which is not registered, `GetIndex`
returns 0, the index of "grass", and not the index of a sprite named
"unknown", which does not exist. -/
theorem GetIndex_fallback_counterexample :
    NewSprites [plainSheet] = Except.ok (loadedSprites [plainSheet]) ∧
    (loadedSprites [plainSheet]).indices "nope" = none ∧
    (loadedSprites [plainSheet]).indices nameUnknown = none ∧
    (loadedSprites [plainSheet]).indices "grass" = some 0 ∧
    (loadedSprites [plainSheet]).GetIndex "nope" = 0 ∧
    ¬ ∃ u, (loadedSprites [plainSheet]).indices nameUnknown = some u ∧
      (loadedSprites [plainSheet]).GetIndex "nope" = u :=
  have hnone : (loadedSprites [plainSheet]).indices nameUnknown = none := by decide
  ⟨rfl, by decide, hnone, by decide, by decide,
    fun ⟨_, hu, _⟩ => absurd (hnone ▸ hu) (by simp)⟩

/-- C18, amended: sprite index lookup with fallback. For every `Sprites` value
built by `NewSprites` and every name, `GetIndex` returns the index registered
for the name (its position in load order) when a sheet registers it; otherwise
it returns the index registered under "unknown" when a sheet registers that
name, and 0 when none does. -/
theorem GetIndex_lookup (sheets : List SpriteSheet) (s : Sprites)
    (hnew : NewSprites sheets = Except.ok s) (name : String) :
    (∀ i : Nat, (spriteNames sheets)[i]? = some name → s.GetIndex name = i) ∧
    (name ∉ spriteNames sheets →
      (∀ u : Nat, (spriteNames sheets)[u]? = some nameUnknown → s.GetIndex name = u) ∧
      (nameUnknown ∉ spriteNames sheets → s.GetIndex name = 0)) := by
  obtain ⟨-, -, hmap, hunk⟩ := NewSprites_numbered sheets s hnew
  have hnone : ∀ a : String, a ∉ spriteNames sheets → s.indices a = none := by
    intro a ha
    cases hq : s.indices a with
    | none => rfl
    | some j =>
      have hj := (hmap a j).mp hq
      exact absurd (List.getElem?_mem hj) ha
  refine ⟨?_, ?_⟩
  · intro i hi
    have := (hmap name i).mpr hi
    simp [Sprites.GetIndex, this]
  · intro hname
    have hn := hnone name hname
    refine ⟨?_, ?_⟩
    · intro u hu
      have := (hmap nameUnknown u).mpr hu
      simp [Sprites.GetIndex, hn, hunk, this]
    · intro hno
      simp [Sprites.GetIndex, hn, hunk, hnone nameUnknown hno]

/-- Witness of C18, amended: with a sheet that registers "unknown" at index 3,
a name that no sheet registers is sent to 3, and "tree" to its own index 1. -/
theorem GetIndex_lookup_witness :
    NewSprites [plainSheet, fallbackSheet] = Except.ok (loadedSprites [plainSheet, fallbackSheet]) ∧
    (loadedSprites [plainSheet, fallbackSheet]).GetIndex "tree" = 1 ∧
    (loadedSprites [plainSheet, fallbackSheet]).GetIndex "nope" = 3 :=
  ⟨rfl,
    (GetIndex_lookup [plainSheet, fallbackSheet] (loadedSprites [plainSheet, fallbackSheet])
      rfl "tree").1 1 (by decide),
    ((GetIndex_lookup [plainSheet, fallbackSheet] (loadedSprites [plainSheet, fallbackSheet])
      rfl "nope").2 (by decide)).1 3 (by decide)⟩

/-- C19 as stated fails: in the view with the even tile size 2 by 2 the
distinct tiles (2^61, -2^61) and (-2^61, 2^61), made of `int` values, have the
same screen point (-2^62, 0): the product `(x - y) * TileWidth` of the first
wraps from 2^63 to -2^63. -/
theorem TileToScreen_injective_counterexample :
    (2 : Int) ∣ 2 ∧ (2 : Int) ≠ 0 ∧
    fitsInt 2305843009213693952 ∧ fitsInt (-2305843009213693952) ∧
    ((2305843009213693952 : Int), (-2305843009213693952 : Int)) ≠
      ((-2305843009213693952 : Int), (2305843009213693952 : Int)) ∧
    View.TileToScreen ⟨2, 2, 0, 0, 1.0⟩ 2305843009213693952 (-2305843009213693952) =
      ⟨-4611686018427387904, 0⟩ ∧
    View.TileToScreen ⟨2, 2, 0, 0, 1.0⟩ 2305843009213693952 (-2305843009213693952) =
      View.TileToScreen ⟨2, 2, 0, 0, 1.0⟩ (-2305843009213693952) 2305843009213693952 :=
  ⟨dvd_refl 2, by decide, by decide, by decide, by decide, by decide, by decide⟩

/-- C19, amended: `TileToScreen` is injective on the tiles where its arithmetic
does not overflow, when both tile dimensions are even and non-zero: for two
tiles such that `x - y`, `x + y` and the products `(x - y) * TileWidth`,
`(x + y) * TileHeight` lie in the range of `int`, equal screen points come from
equal tiles. For a view with the odd dimensions `TileWidth = TileHeight = 1`
the distinct tiles (0,0) and (1,0) have the same screen point, so no exact
inverse exists there. -/
theorem TileToScreen_injective :
    (∀ (v : View), 2 ∣ v.TileWidth → v.TileWidth ≠ 0 → 2 ∣ v.TileHeight → v.TileHeight ≠ 0 →
      ∀ x1 y1 x2 y2 : Int,
        fitsInt (x1 - y1) → fitsInt ((x1 - y1) * v.TileWidth) →
        fitsInt (x1 + y1) → fitsInt ((x1 + y1) * v.TileHeight) →
        fitsInt (x2 - y2) → fitsInt ((x2 - y2) * v.TileWidth) →
        fitsInt (x2 + y2) → fitsInt ((x2 + y2) * v.TileHeight) →
        v.TileToScreen x1 y1 = v.TileToScreen x2 y2 →
        x1 = x2 ∧ y1 = y2) ∧
    (∀ (cx cy : Int) (z : Float),
      (0, 0) ≠ ((1 : Int), (0 : Int)) ∧
      View.TileToScreen ⟨1, 1, cx, cy, z⟩ 0 0 = View.TileToScreen ⟨1, 1, cx, cy, z⟩ 1 0) := by
  constructor
  · intro v hw hw0 hh hh0 x1 y1 x2 y2 hd1 hp1 hs1 hq1 hd2 hp2 hs2 hq2 heq
    rw [TileToScreen_exact v x1 y1 hd1 hp1 hs1 hq1,
      TileToScreen_exact v x2 y2 hd2 hp2 hs2 hq2] at heq
    obtain ⟨a, ha⟩ := hw
    obtain ⟨b, hb⟩ := hh
    have ha0 : a ≠ 0 := by
      intro h
      apply hw0
      rw [ha, h]
      simp
    have hb0 : b ≠ 0 := by
      intro h
      apply hh0
      rw [hb, h]
      simp
    have hX : ∀ d : Int, Int.tdiv (d * v.TileWidth) 2 = d * a := by
      intro d
      rw [ha, show d * (2 * a) = d * a * 2 by ring]
      exact Int.mul_tdiv_cancel _ (by decide)
    have hY : ∀ d : Int, Int.tdiv (d * v.TileHeight) 2 = d * b := by
      intro d
      rw [hb, show d * (2 * b) = d * b * 2 by ring]
      exact Int.mul_tdiv_cancel _ (by decide)
    simp only [hX, hY, Point.mk.injEq] at heq
    have h1 : x1 - y1 = x2 - y2 := mul_right_cancel₀ ha0 heq.1
    have h2 : x1 + y1 = x2 + y2 := mul_right_cancel₀ hb0 heq.2
    constructor <;> omega
  · intro cx cy z
    simp only [View.TileToScreen]
    decide

/-- Witness of C19, amended: with tiles of 64 by 32 the tiles (4,3) and (5,3)
are in range and have different screen points, (32, 112) and (64, 128). -/
theorem TileToScreen_injective_witness :
    View.TileToScreen ⟨64, 32, 0, 0, 1.0⟩ 4 3 = ⟨32, 112⟩ ∧
    View.TileToScreen ⟨64, 32, 0, 0, 1.0⟩ 5 3 = ⟨64, 128⟩ ∧
    ((4 : Int) = 4 ∧ (3 : Int) = 3) ∧
    View.TileToScreen ⟨64, 32, 0, 0, 1.0⟩ 5 3 ≠ View.TileToScreen ⟨64, 32, 0, 0, 1.0⟩ 4 3 :=
  ⟨by decide, by decide,
    TileToScreen_injective.1 ⟨64, 32, 0, 0, 1.0⟩ (by decide) (by decide) (by decide) (by decide)
      4 3 4 3 (by decide) (by decide) (by decide) (by decide)
      (by decide) (by decide) (by decide) (by decide) rfl,
    fun h => absurd
      (TileToScreen_injective.1 ⟨64, 32, 0, 0, 1.0⟩ (by decide) (by decide) (by decide)
        (by decide) 5 3 4 3 (by decide) (by decide) (by decide) (by decide)
        (by decide) (by decide) (by decide) (by decide) h).1 (by decide)⟩

/-- C20: sprite table invariant. When `NewSprites` returns a table, `sprites`
and `infos` have the same length `n`, which is the number of sprite names of
the sheets; the map from names to indices is injective with every value below
`n`; the names are numbered consecutively in load order (a name has index `i`
exactly when it is the `i`-th name); and for every name `GetIndex` is below `n`
and `Get` of it is in bounds whenever `n > 0`. -/
theorem NewSprites_table (sheets : List SpriteSheet) (s : Sprites)
    (hnew : NewSprites sheets = Except.ok s) :
    s.sprites.length = s.infos.length ∧
    s.sprites.length = (spriteNames sheets).length ∧
    (∀ (a b : String) (i : Nat), s.indices a = some i → s.indices b = some i → a = b) ∧
    (∀ (a : String) (i : Nat), s.indices a = some i → i < s.sprites.length) ∧
    (∀ (a : String) (i : Nat), s.indices a = some i ↔ (spriteNames sheets)[i]? = some a) ∧
    (∀ name : String, 0 < s.sprites.length →
      s.GetIndex name < s.sprites.length ∧ (s.Get (s.GetIndex name)).isSome = true) := by
  obtain ⟨hsp, hinf, hmap, hunk⟩ := NewSprites_numbered sheets s hnew
  have hlt : ∀ (a : String) (i : Nat), s.indices a = some i → i < s.sprites.length := by
    intro a i hi
    have hi2 := (hmap a i).mp hi
    rw [hsp]
    by_contra hge
    rw [List.getElem?_eq_none (by omega)] at hi2
    exact absurd hi2 (by simp)
  have hget : ∀ name : String, 0 < s.sprites.length → s.GetIndex name < s.sprites.length := by
    intro name hpos
    unfold Sprites.GetIndex
    cases hq : s.indices name with
    | some i => exact hlt name i hq
    | none =>
      simp only []
      rw [hunk]
      cases hu : s.indices nameUnknown with
      | some u => exact hlt nameUnknown u hu
      | none => simpa using hpos
  refine ⟨by rw [hsp, hinf], hsp, ?_, hlt, hmap, ?_⟩
  · intro a b i ha hb
    have h1 := (hmap a i).mp ha
    have h2 := (hmap b i).mp hb
    rw [h1] at h2
    exact Option.some.inj h2
  · intro name hpos
    have h1 := hget name hpos
    refine ⟨h1, ?_⟩
    have h2 : s.GetIndex name < s.infos.length := by
      rw [hinf, ← hsp]
      exact h1
    simp [Sprites.Get, List.getElem?_eq_getElem h1, List.getElem?_eq_getElem h2]

/-- Witness of C20: two sheets with four sprites; "unknown" has index 3 and an
unregistered name is looked up in bounds. -/
theorem NewSprites_table_witness :
    NewSprites [plainSheet, fallbackSheet] = Except.ok (loadedSprites [plainSheet, fallbackSheet]) ∧
    (loadedSprites [plainSheet, fallbackSheet]).sprites.length = 4 ∧
    (loadedSprites [plainSheet, fallbackSheet]).infos.length = 4 ∧
    ((loadedSprites [plainSheet, fallbackSheet]).Get
      ((loadedSprites [plainSheet, fallbackSheet]).GetIndex "nope")).isSome = true :=
  ⟨rfl, by decide, by decide,
    ((NewSprites_table [plainSheet, fallbackSheet] (loadedSprites [plainSheet, fallbackSheet])
      rfl).2.2.2.2.2 "nope" (by decide)).2⟩

end TinyWorld
